import Mathlib

/-!
ReactOS cache manager, file-system support routines (ntoskrnl/cc/fs.c).

A shallow embedding of the routines of `ntoskrnl/cc/fs.c` that inspect or
detach cached views (VACBs), followed by theorems about them.

Representation.
* Kernel objects live in arenas addressed by handles (natural numbers): the
  arena of `ROS_VACB`s, of `ROS_SHARED_CACHE_MAP`s and of `FILE_OBJECT`s.
  A pointer that the source dereferences without a NULL test is a handle; a
  pointer that the source tests against NULL is an `Option`.
* An intrusive `LIST_ENTRY` list is the list of the handles of the records
  linked into it, head first. `RemoveEntryList` on the entry embedded in a
  record is `List.erase` of its handle, `InsertHeadList` is `::`.
* `LONGLONG` values are `Int`; a `LONGLONG` addition is wrapped to the signed
  64-bit range by `wrapLONGLONG`. `ULONG` values are `Nat`; the `ULONG`
  subtraction on `DirtyPageCount` is taken modulo `2 ^ 32`.
* `PAGE_SIZE` and `FO_TEMPORARY_FILE` come from headers outside this file and
  are parameters of the routines that use them.
* The routines that are only declared here (`CcRosInternalFreeVacb`,
  `KeSetEvent`, `CcRosReleaseFileCache`) are external. Calls of the first two
  are recorded in trace fields of the state; the third is a parameter.
-/

namespace CcFs

/-! ## Data model -/

/-- Handle of a `ROS_VACB` (a cached view). -/
abbrev VacbId := Nat

/-- The source: `#define VACB_MAPPING_GRANULARITY (256 * 1024)`. -/
def VACB_MAPPING_GRANULARITY : Nat := 256 * 1024

/-- Largest `LONGLONG`, `2 ^ 63 - 1`. -/
def MAXLONGLONG : Int := 9223372036854775807

/-- Result of a `LONGLONG` addition: the mathematical sum wrapped into
`[-2 ^ 63, 2 ^ 63)`. -/
def wrapLONGLONG (x : Int) : Int :=
  (x + 9223372036854775808) % 18446744073709551616 - 9223372036854775808

/-- `ULONG` subtraction `a -= b`, modulo `2 ^ 32`. -/
def subULONG (a b : Nat) : Nat :=
  (a + 4294967296 - b % 4294967296) % 4294967296

/-- The fields of `ROS_VACB` that `fs.c` reads. The three embedded list
entries are represented by membership of the handle in the three lists. -/
structure ROS_VACB where
  /-- The member `FileOffset.QuadPart`. -/
  FileOffset : Int
  /-- The member `ReferenceCount`. -/
  ReferenceCount : Nat
  /-- The member `Dirty`. -/
  Dirty : Bool
  /-- Handle of the owning shared cache map. -/
  SharedCacheMap : Nat

/-- The fields of `ROS_SHARED_CACHE_MAP` that `fs.c` uses. -/
structure ROS_SHARED_CACHE_MAP where
  /-- The member `SectionSize.QuadPart`. -/
  SectionSize : Int
  /-- The member `FileSize.QuadPart`. -/
  FileSize : Int
  /-- The list headed by `CacheMapVacbListHead`, head first. -/
  CacheMapVacbList : List VacbId
  /-- Handle of the file object the map was created for. -/
  FileObject : Nat

/-- The one field of `SECTION_OBJECT_POINTERS` used here; `none` is NULL. -/
structure SECTION_OBJECT_POINTERS where
  /-- Handle of the shared cache map, `none` when the file is not cached. -/
  SharedCacheMap : Option Nat

/-- The fields of `FILE_OBJECT` that `fs.c` uses. -/
structure FILE_OBJECT where
  /-- The volume parameter block pointer, as a handle. -/
  Vpb : Nat
  /-- The flag word. -/
  Flags : Nat
  /-- The section object pointers; `none` is a NULL pointer. -/
  SectionObjectPointer : Option SECTION_OBJECT_POINTERS

/-- The caller's size record, `CC_FILE_SIZES`. -/
structure CC_FILE_SIZES where
  /-- The member `AllocationSize.QuadPart`. -/
  AllocationSize : Int
  /-- The member `FileSize.QuadPart`. -/
  FileSize : Int
  /-- The member `ValidDataLength.QuadPart`. -/
  ValidDataLength : Int

/-- The memory `fs.c` works on: the three arenas, the two global lists, the
global dirty page counter, and the traces of the external calls. -/
structure CcState where
  /-- Arena of views. -/
  Vacbs : VacbId → ROS_VACB
  /-- Arena of shared cache maps. -/
  CacheMaps : Nat → ROS_SHARED_CACHE_MAP
  /-- Arena of file objects. -/
  FileObjects : Nat → FILE_OBJECT
  /-- The global recency list (entries `VacbLruListEntry`), head first. -/
  VacbLruList : List VacbId
  /-- The global list headed by `DirtyVacbListHead`, head first. -/
  DirtyVacbList : List VacbId
  /-- The global `ULONG DirtyPageCount`. -/
  DirtyPageCount : Nat
  /-- Trace of the calls `CcRosInternalFreeVacb (Vacb)`, oldest first. -/
  FreedVacbs : List VacbId
  /-- Trace of the calls `KeSetEvent` on a completion event, oldest first. -/
  SignalledEvents : List Nat

/-- The macro `BooleanFlagOn (Flags, Flag)`: some bit of `Flag` is set. -/
def BooleanFlagOn (Flags Flag : Nat) : Bool := (Flags &&& Flag) != 0

/-! ## CcIsThereDirtyData -/

/-- The `for` loop of `CcIsThereDirtyData` over the entries of the dirty list
that are still to be visited; the value is the final `Dirty` local. -/
def dirtyScan (FO_TEMPORARY_FILE : Nat) (s : CcState) (Vpb : Nat) : List VacbId → Bool
  | [] => false
  | Entry :: rest =>
    let Vacb := s.Vacbs Entry
    let FileObject := s.FileObjects (s.CacheMaps Vacb.SharedCacheMap).FileObject
    if FileObject.Vpb ≠ Vpb then
      dirtyScan FO_TEMPORARY_FILE s Vpb rest
    else if BooleanFlagOn FileObject.Flags FO_TEMPORARY_FILE then
      dirtyScan FO_TEMPORARY_FILE s Vpb rest
    else if Vacb.Dirty then
      true
    else
      dirtyScan FO_TEMPORARY_FILE s Vpb rest

/-- The routine `CcIsThereDirtyData (Vpb)`: the returned BOOLEAN and the
memory afterwards. -/
def CcIsThereDirtyData (FO_TEMPORARY_FILE : Nat) (s : CcState) (Vpb : Nat) : Bool × CcState :=
  (dirtyScan FO_TEMPORARY_FILE s Vpb s.DirtyVacbList, s)

/-! ## CcPurgeCacheSection -/

/-- What the locked loop of `CcPurgeCacheSection` reads and writes: the three
lists, the dirty page counter, the local `FreeList` and the local `Success`. -/
structure PurgeScan where
  /-- The view list of the shared cache map. -/
  CacheMapVacbList : List VacbId
  /-- The global recency list. -/
  VacbLruList : List VacbId
  /-- The global dirty list. -/
  DirtyVacbList : List VacbId
  /-- The global dirty page counter. -/
  DirtyPageCount : Nat
  /-- The local `FreeList`, head first. -/
  FreeList : List VacbId
  /-- The local `Success`. -/
  Success : Bool

/-- The local `ViewEnd` computed for a view. -/
def ViewEnd (Vacb : ROS_VACB) (SectionSize : Int) : Int :=
  min (wrapLONGLONG (Vacb.FileOffset + (VACB_MAPPING_GRANULARITY : Int))) SectionSize

/-- The body of the loop once a view is known to be in range and purgeable:
unlink it from the recency list, from the dirty list when it is dirty (with
the counter update), from the view list, and push it on `FreeList`. -/
def unlinkVacb (Vacbs : VacbId → ROS_VACB) (PAGE_SIZE : Nat) (v : VacbId)
    (st : PurgeScan) : PurgeScan :=
  ⟨st.CacheMapVacbList.erase v,
   st.VacbLruList.erase v,
   if (Vacbs v).Dirty then st.DirtyVacbList.erase v else st.DirtyVacbList,
   if (Vacbs v).Dirty then
     subULONG st.DirtyPageCount (VACB_MAPPING_GRANULARITY / PAGE_SIZE)
   else st.DirtyPageCount,
   v :: st.FreeList,
   st.Success⟩

/-- The `while` loop of `CcPurgeCacheSection` over the entries of the view
list that are still to be visited. `ListEntry` is advanced before the current
entry is unlinked, so the entries visited are those of the list as it was when
the loop started. -/
def purgeLoop (Vacbs : VacbId → ROS_VACB) (PAGE_SIZE : Nat)
    (SectionSize StartOffset EndOffset : Int) : List VacbId → PurgeScan → PurgeScan
  | [], st => st
  | v :: rest, st =>
    if (Vacbs v).FileOffset < StartOffset then
      purgeLoop Vacbs PAGE_SIZE SectionSize StartOffset EndOffset rest st
    else if ViewEnd (Vacbs v) SectionSize ≥ EndOffset then
      st
    else if (Vacbs v).ReferenceCount ≠ 0 ∧ (Vacbs v).Dirty = false then
      ⟨st.CacheMapVacbList, st.VacbLruList, st.DirtyVacbList, st.DirtyPageCount,
        st.FreeList, false⟩
    else
      purgeLoop Vacbs PAGE_SIZE SectionSize StartOffset EndOffset rest
        (unlinkVacb Vacbs PAGE_SIZE v st)

/-- The second loop of `CcPurgeCacheSection`: take the head of `FreeList` and
hand it to `CcRosInternalFreeVacb`, until the list is empty. The second
argument is the trace of those calls. -/
def freeLoop : List VacbId → List VacbId → List VacbId
  | [], trace => trace
  | v :: rest, trace => freeLoop rest (trace ++ [v])

/-- The local `StartOffset`. -/
def purgeStartOffset (FileOffset : Option Int) : Int :=
  match FileOffset with
  | some QuadPart => QuadPart
  | none => 0

/-- The local `EndOffset`. The `ASSERT` after the addition is a debug check
and has no effect on the state. -/
def purgeEndOffset (FileOffset : Option Int) (Length : Nat) : Int :=
  if Length = 0 ∨ FileOffset = none then MAXLONGLONG
  else wrapLONGLONG (purgeStartOffset FileOffset + (Length : Int))

/-- The routine `CcPurgeCacheSection (SectionObjectPointer, FileOffset,
Length, UninitializeCacheMaps)`: the returned BOOLEAN and the memory
afterwards. `UninitializeCacheMaps` only triggers a debug print. -/
def CcPurgeCacheSection (PAGE_SIZE : Nat) (s : CcState)
    (SectionObjectPointer : SECTION_OBJECT_POINTERS) (FileOffset : Option Int)
    (Length : Nat) (_UninitializeCacheMaps : Bool) : Bool × CcState :=
  match SectionObjectPointer.SharedCacheMap with
  | none => (false, s)
  | some m =>
    let SharedCacheMap := s.CacheMaps m
    let st := purgeLoop s.Vacbs PAGE_SIZE SharedCacheMap.SectionSize
      (purgeStartOffset FileOffset) (purgeEndOffset FileOffset Length)
      SharedCacheMap.CacheMapVacbList
      ⟨SharedCacheMap.CacheMapVacbList, s.VacbLruList, s.DirtyVacbList,
        s.DirtyPageCount, [], true⟩
    (st.Success,
      ⟨s.Vacbs,
       Function.update s.CacheMaps m
         ⟨SharedCacheMap.SectionSize, SharedCacheMap.FileSize, st.CacheMapVacbList,
           SharedCacheMap.FileObject⟩,
       s.FileObjects,
       st.VacbLruList,
       st.DirtyVacbList,
       st.DirtyPageCount,
       freeLoop st.FreeList s.FreedVacbs,
       s.SignalledEvents⟩)

/-! ## CcSetFileSizes, CcUninitializeCacheMap, CcGetFileSizes -/

/-- The routine `CcSetFileSizes (FileObject, FileSizes)`: the memory
afterwards; `none` when `FileObject->SectionObjectPointer` is NULL, which the
routine dereferences without a test. -/
def CcSetFileSizes (PAGE_SIZE : Nat) (s : CcState) (FileObject : Nat)
    (FileSizes : CC_FILE_SIZES) : Option CcState :=
  match (s.FileObjects FileObject).SectionObjectPointer with
  | none => none
  | some SectionObjectPointer =>
    match SectionObjectPointer.SharedCacheMap with
    | none => some s
    | some m =>
      let s1 :=
        if FileSizes.AllocationSize < (s.CacheMaps m).SectionSize then
          (CcPurgeCacheSection PAGE_SIZE s SectionObjectPointer
            (some FileSizes.AllocationSize) 0 false).2
        else s
      some ⟨s1.Vacbs,
        Function.update s1.CacheMaps m
          ⟨FileSizes.AllocationSize, FileSizes.FileSize,
            (s1.CacheMaps m).CacheMapVacbList, (s1.CacheMaps m).FileObject⟩,
        s1.FileObjects, s1.VacbLruList, s1.DirtyVacbList, s1.DirtyPageCount,
        s1.FreedVacbs, s1.SignalledEvents⟩

/-- The first `if` statement of `CcUninitializeCacheMap`: the truncate step.
It runs when `TruncateSize`, the section object pointers and the shared cache
map are all non-NULL. -/
def uninitializeTruncate (PAGE_SIZE : Nat) (s : CcState) (FileObject : Nat)
    (TruncateSize : Option Int) : CcState :=
  match TruncateSize, (s.FileObjects FileObject).SectionObjectPointer with
  | some QuadPart, some SectionObjectPointer =>
    match SectionObjectPointer.SharedCacheMap with
    | none => s
    | some m =>
      let SharedCacheMap := s.CacheMaps m
      let s1 : CcState :=
        if SharedCacheMap.FileSize > QuadPart then
          ⟨s.Vacbs,
           Function.update s.CacheMaps m
             ⟨SharedCacheMap.SectionSize, QuadPart, SharedCacheMap.CacheMapVacbList,
               SharedCacheMap.FileObject⟩,
           s.FileObjects, s.VacbLruList, s.DirtyVacbList, s.DirtyPageCount,
           s.FreedVacbs, s.SignalledEvents⟩
        else s
      (CcPurgeCacheSection PAGE_SIZE s1 SectionObjectPointer (some QuadPart) 0 false).2
  | _, _ => s

/-- The macro `NT_SUCCESS (Status)`. -/
def NT_SUCCESS (Status : Int) : Bool := decide (0 ≤ Status)

/-- The routine `CcUninitializeCacheMap (FileObject, TruncateSize,
UninitializeCompleteEvent)`: the returned BOOLEAN and the memory afterwards.
The external `CcRosReleaseFileCache` is a parameter: it maps the memory and a
file object to an NTSTATUS and the memory afterwards. -/
def CcUninitializeCacheMap (PAGE_SIZE : Nat)
    (CcRosReleaseFileCache : CcState → Nat → Int × CcState) (s : CcState)
    (FileObject : Nat) (TruncateSize : Option Int)
    (UninitializeCompleteEvent : Option Nat) : Bool × CcState :=
  let s1 := uninitializeTruncate PAGE_SIZE s FileObject TruncateSize
  let r := CcRosReleaseFileCache s1 FileObject
  let s2 := r.2
  let s3 : CcState :=
    match UninitializeCompleteEvent with
    | some Event =>
      ⟨s2.Vacbs, s2.CacheMaps, s2.FileObjects, s2.VacbLruList, s2.DirtyVacbList,
        s2.DirtyPageCount, s2.FreedVacbs, s2.SignalledEvents ++ [Event]⟩
    | none => s2
  (NT_SUCCESS r.1, s3)

/-- The routine `CcGetFileSizes (FileObject, FileSizes)`: the returned BOOLEAN,
the caller's record and the memory afterwards; `none` when
`FileObject->SectionObjectPointer` is NULL, which the routine dereferences
without a test. -/
def CcGetFileSizes (s : CcState) (FileObject : Nat) (FileSizes : CC_FILE_SIZES) :
    Option (Bool × CC_FILE_SIZES × CcState) :=
  match (s.FileObjects FileObject).SectionObjectPointer with
  | none => none
  | some SectionObjectPointer =>
    match SectionObjectPointer.SharedCacheMap with
    | none => some (false, FileSizes, s)
    | some m =>
      some (true,
        ⟨(s.CacheMaps m).SectionSize, (s.CacheMaps m).FileSize, (s.CacheMaps m).FileSize⟩,
        s)

/-! ## Reading of the purge loop
Three functions of the view list as it is when the loop starts. They are proof
devices: `purgeLoop_eq` shows that the loop computes exactly them. -/

/-- The views the purge loop unlinks, in the order of the scan. -/
def purgeDetached (Vacbs : VacbId → ROS_VACB) (SectionSize StartOffset EndOffset : Int) :
    List VacbId → List VacbId
  | [] => []
  | v :: rest =>
    if (Vacbs v).FileOffset < StartOffset then
      purgeDetached Vacbs SectionSize StartOffset EndOffset rest
    else if ViewEnd (Vacbs v) SectionSize ≥ EndOffset then []
    else if (Vacbs v).ReferenceCount ≠ 0 ∧ (Vacbs v).Dirty = false then []
    else v :: purgeDetached Vacbs SectionSize StartOffset EndOffset rest

/-- Whether the purge loop ends without meeting a referenced clean view. -/
def purgeOk (Vacbs : VacbId → ROS_VACB) (SectionSize StartOffset EndOffset : Int) :
    List VacbId → Bool
  | [] => true
  | v :: rest =>
    if (Vacbs v).FileOffset < StartOffset then
      purgeOk Vacbs SectionSize StartOffset EndOffset rest
    else if ViewEnd (Vacbs v) SectionSize ≥ EndOffset then true
    else if (Vacbs v).ReferenceCount ≠ 0 ∧ (Vacbs v).Dirty = false then false
    else purgeOk Vacbs SectionSize StartOffset EndOffset rest

/-- The views the purge loop leaves in the view list, in list order. -/
def purgeKept (Vacbs : VacbId → ROS_VACB) (SectionSize StartOffset EndOffset : Int) :
    List VacbId → List VacbId
  | [] => []
  | v :: rest =>
    if (Vacbs v).FileOffset < StartOffset then
      v :: purgeKept Vacbs SectionSize StartOffset EndOffset rest
    else if ViewEnd (Vacbs v) SectionSize ≥ EndOffset then v :: rest
    else if (Vacbs v).ReferenceCount ≠ 0 ∧ (Vacbs v).Dirty = false then v :: rest
    else purgeKept Vacbs SectionSize StartOffset EndOffset rest

/-- The dirty page counter after unlinking the views of a list in turn. -/
def countAfter (Vacbs : VacbId → ROS_VACB) (PAGE_SIZE : Nat) : List VacbId → Nat → Nat
  | [], c => c
  | v :: rest, c =>
    countAfter Vacbs PAGE_SIZE rest
      (if (Vacbs v).Dirty then subULONG c (VACB_MAPPING_GRANULARITY / PAGE_SIZE) else c)

/-- A view that the loop refuses to unlink: referenced and not dirty. -/
def PinnedClean (Vacb : ROS_VACB) : Prop :=
  Vacb.ReferenceCount ≠ 0 ∧ Vacb.Dirty = false

instance (Vacb : ROS_VACB) : Decidable (PinnedClean Vacb) := by
  unfold PinnedClean; infer_instance

/-- The scan passes over a view without stopping at it: the view is skipped
as lying before the range, or it is in range and gets unlinked. -/
def ScanPasses (Vacbs : VacbId → ROS_VACB) (SectionSize StartOffset EndOffset : Int)
    (v : VacbId) : Prop :=
  (Vacbs v).FileOffset < StartOffset ∨
    (ViewEnd (Vacbs v) SectionSize < EndOffset ∧ ¬ PinnedClean (Vacbs v))

instance (Vacbs : VacbId → ROS_VACB) (SectionSize StartOffset EndOffset : Int) (v : VacbId) :
    Decidable (ScanPasses Vacbs SectionSize StartOffset EndOffset v) := by
  unfold ScanPasses; infer_instance

/-! ## Predicates and example states used by the theorems -/

/-- The views one call of `CcPurgeCacheSection` on cache map `m` unlinks. -/
def detachedOf (s : CcState) (m : Nat) (FileOffset : Option Int) (Length : Nat) :
    List VacbId :=
  purgeDetached s.Vacbs (s.CacheMaps m).SectionSize (purgeStartOffset FileOffset)
    (purgeEndOffset FileOffset Length) (s.CacheMaps m).CacheMapVacbList

/-- The views one call of `CcPurgeCacheSection` leaves in the list of `m`. -/
def keptOf (s : CcState) (m : Nat) (FileOffset : Option Int) (Length : Nat) :
    List VacbId :=
  purgeKept s.Vacbs (s.CacheMaps m).SectionSize (purgeStartOffset FileOffset)
    (purgeEndOffset FileOffset Length) (s.CacheMaps m).CacheMapVacbList

/-- A memory with one file object (handle 0, volume 1, not temporary) cached
by cache map 0, and nothing else; all other handles hold empty records. -/
def exampleState (Vacbs : VacbId → ROS_VACB) (SectionSize FileSize : Int)
    (views lru dirty : List VacbId) (count : Nat) : CcState :=
  ⟨Vacbs,
   fun m => if m = 0 then ⟨SectionSize, FileSize, views, 0⟩ else ⟨0, 0, [], 0⟩,
   fun _ => ⟨1, 0, some ⟨some 0⟩⟩,
   lru, dirty, count, [], []⟩

/-- One clean unreferenced view (handle 0) at offset 0 of a 1 MiB section. -/
def stateOneView : CcState :=
  exampleState (fun _ => ⟨0, 0, false, 0⟩) 1048576 1048576 [0] [0] [] 0

/-- The claim C1 as the specification states it, for one call: on a view list
in non-decreasing offset order, a bounded purge that returns TRUE leaves no
view whose offset lies in the range. -/
def PurgeMonotonicityAsStated (PAGE_SIZE : Nat) (s : CcState) (m : Nat)
    (StartOffset : Int) (Length : Nat) : Prop :=
  (s.CacheMaps m).CacheMapVacbList.Pairwise
      (fun a b => (s.Vacbs a).FileOffset ≤ (s.Vacbs b).FileOffset) →
  0 ≤ StartOffset → 0 < Length → StartOffset + (Length : Int) ≤ MAXLONGLONG →
  (CcPurgeCacheSection PAGE_SIZE s ⟨some m⟩ (some StartOffset) Length false).1 = true →
  ∀ v ∈ ((CcPurgeCacheSection PAGE_SIZE s ⟨some m⟩ (some StartOffset) Length
      false).2.CacheMaps m).CacheMapVacbList,
    ¬ (StartOffset ≤ (s.Vacbs v).FileOffset ∧
        (s.Vacbs v).FileOffset < StartOffset + (Length : Int))

/-- A second example: views 0 (offset 0, referenced once, clean) and 1
(offset 256 KiB, unreferenced, clean) of a 1 MiB section, both on the
recency list. -/
def statePinnedFirst : CcState :=
  exampleState (fun v => if v = 0 then ⟨0, 1, false, 0⟩ else ⟨262144, 0, false, 0⟩)
    1048576 1048576 [0, 1] [0, 1] [] 0

/-- A third example: views 0 (offset 0, unreferenced, dirty) and 1 (offset
256 KiB, unreferenced, clean) of a 1 MiB section; view 0 is on the dirty list
and the counter holds its 64 pages. -/
def stateDirtyView : CcState :=
  exampleState (fun v => if v = 0 then ⟨0, 0, true, 0⟩ else ⟨262144, 0, false, 0⟩)
    1048576 1048576 [0, 1] [0, 1] [0] 64

/-- Every view linked into some view list is on the dirty list iff its dirty
flag is set. -/
def DirtyMembership (s : CcState) : Prop :=
  ∀ m, ∀ v ∈ (s.CacheMaps m).CacheMapVacbList,
    (v ∈ s.DirtyVacbList ↔ (s.Vacbs v).Dirty = true)

/-- No view that left a view list between `s` and `t` is on the dirty list
of `t`. -/
def NoDetachedDirty (s t : CcState) : Prop :=
  ∀ m, ∀ v ∈ (s.CacheMaps m).CacheMapVacbList,
    v ∉ (t.CacheMaps m).CacheMapVacbList → v ∉ t.DirtyVacbList

/-- What the intrusive lists guarantee by construction: a record is linked at
most once into the dirty list and into a view list, and only into the view
list of the cache map it points to. -/
def ListsWellFormed (s : CcState) : Prop :=
  s.DirtyVacbList.Nodup ∧
  (∀ m, (s.CacheMaps m).CacheMapVacbList.Nodup) ∧
  (∀ m, ∀ v ∈ (s.CacheMaps m).CacheMapVacbList, (s.Vacbs v).SharedCacheMap = m)

/-- The states `s` and `t` have the same views, view lists and dirty list. -/
def SameLinks (s t : CcState) : Prop :=
  t.Vacbs = s.Vacbs ∧ t.DirtyVacbList = s.DirtyVacbList ∧
  ∀ m, (t.CacheMaps m).CacheMapVacbList = (s.CacheMaps m).CacheMapVacbList

/-- The file object a view belongs to, `Vacb->SharedCacheMap->FileObject`. -/
def owningFile (s : CcState) (v : VacbId) : FILE_OBJECT :=
  s.FileObjects (s.CacheMaps (s.Vacbs v).SharedCacheMap).FileObject

/-- A state with two cached files: file object 0 (volume 1, flag bit 0x8000
set) with cache map 0 and view 0, file object 1 (volume 2, no flag) with cache
map 1 and view 1. Both views are dirty and on the dirty list. -/
def stateTwoFiles : CcState :=
  ⟨fun v => if v = 0 then ⟨0, 0, true, 0⟩ else ⟨0, 0, true, 1⟩,
   fun m => if m = 0 then ⟨262144, 262144, [0], 0⟩ else ⟨262144, 262144, [1], 1⟩,
   fun f => if f = 0 then ⟨1, 32768, some ⟨some 0⟩⟩ else ⟨2, 0, some ⟨some 1⟩⟩,
   [0, 1], [0, 1], 128, [], []⟩

/-- A fourth example: views 0 (offset 0) and 1 (offset 256 KiB), both clean
and unreferenced, of a 512 KiB section, both on the recency list. -/
def stateTwoClean : CcState :=
  exampleState (fun v => if v = 0 then ⟨0, 0, false, 0⟩ else ⟨262144, 0, false, 0⟩)
    524288 524288 [0, 1] [0, 1] [] 0

/-- The state `s` with the two size fields of cache map `m` overwritten. -/
def withSizes (s : CcState) (m : Nat) (SectionSize FileSize : Int) : CcState :=
  ⟨s.Vacbs,
   Function.update s.CacheMaps m
     ⟨SectionSize, FileSize, (s.CacheMaps m).CacheMapVacbList, (s.CacheMaps m).FileObject⟩,
   s.FileObjects, s.VacbLruList, s.DirtyVacbList, s.DirtyPageCount,
   s.FreedVacbs, s.SignalledEvents⟩

/-- A fifth example: one clean unreferenced view (handle 0) at offset 256 KiB
of a 512 KiB section, on the recency list. -/
def stateShrink : CcState :=
  exampleState (fun _ => ⟨262144, 0, false, 0⟩) 524288 524288 [0] [0] [] 0

/-- A sixth example: views 0 (offset 0) and 1 (offset 256 KiB), both clean and
unreferenced, of a 512 KiB section whose file size is 4096. -/
def stateSmallFile : CcState :=
  exampleState (fun v => if v = 0 then ⟨0, 0, false, 0⟩ else ⟨262144, 0, false, 0⟩)
    524288 4096 [0, 1] [0, 1] [] 0

/-- An external release routine that returns the NTSTATUS `Status` and leaves
the memory as it is. -/
def releaseWith (Status : Int) : CcState → Nat → Int × CcState :=
  fun s _ => (Status, s)

/-- The claim C15 as the specification states it, for one call: a view of the
file that begins before the start offset, whose window of
VACB_MAPPING_GRANULARITY bytes extends past the start offset and which is
unreferenced, is purged: it is no longer in the view list. -/
def SkipRuleAsStated (PAGE_SIZE : Nat) (s : CcState) (m : Nat) (StartOffset : Int)
    (Length : Nat) : Prop :=
  ∀ v ∈ (s.CacheMaps m).CacheMapVacbList,
    (s.Vacbs v).FileOffset < StartOffset →
    StartOffset < (s.Vacbs v).FileOffset + (VACB_MAPPING_GRANULARITY : Int) →
    (s.Vacbs v).ReferenceCount = 0 →
    v ∉ ((CcPurgeCacheSection PAGE_SIZE s ⟨some m⟩ (some StartOffset) Length
      false).2.CacheMaps m).CacheMapVacbList

/-- A seventh example: one clean unreferenced view (handle 0) at offset
256 KiB of a 512 KiB section whose file size is 4096. -/
def stateSmallFileOneView : CcState :=
  exampleState (fun _ => ⟨262144, 0, false, 0⟩) 524288 4096 [0] [0] [] 0

/-- The claim C16 as the specification states it, for one call: with a
truncate size at or above the file size, the truncate step changes neither
the file size nor the view list, the recency list, the dirty list or the
dirty page counter. -/
def TruncateOnlyWhenSmallerAsStated (PAGE_SIZE : Nat) (s : CcState) (FileObject m : Nat)
    (T : Int) : Prop :=
  (s.CacheMaps m).FileSize ≤ T →
  ((uninitializeTruncate PAGE_SIZE s FileObject (some T)).CacheMaps m).FileSize =
      (s.CacheMaps m).FileSize ∧
  ((uninitializeTruncate PAGE_SIZE s FileObject (some T)).CacheMaps m).CacheMapVacbList =
      (s.CacheMaps m).CacheMapVacbList ∧
  (uninitializeTruncate PAGE_SIZE s FileObject (some T)).VacbLruList = s.VacbLruList ∧
  (uninitializeTruncate PAGE_SIZE s FileObject (some T)).DirtyVacbList = s.DirtyVacbList ∧
  (uninitializeTruncate PAGE_SIZE s FileObject (some T)).DirtyPageCount = s.DirtyPageCount

/-- An eighth example: a view list out of offset order. View 0 (offset
512 KiB) is linked before view 1 (offset 0); both are clean and unreferenced,
the section size is 1 MiB. -/
def stateUnsorted : CcState :=
  exampleState (fun v => if v = 0 then ⟨524288, 0, false, 0⟩ else ⟨0, 0, false, 0⟩)
    1048576 1048576 [0, 1] [0, 1] [] 0

/-! ## The loops -/

theorem freeLoop_eq (l trace : List VacbId) : freeLoop l trace = trace ++ l := by
  induction l generalizing trace with
  | nil => simp [freeLoop]
  | cons v rest ih => simp [freeLoop, ih]

theorem purgeLoop_eq (Vacbs : VacbId → ROS_VACB) (PAGE_SIZE : Nat)
    (SectionSize StartOffset EndOffset : Int) (l : List VacbId) (st : PurgeScan) :
    purgeLoop Vacbs PAGE_SIZE SectionSize StartOffset EndOffset l st =
      ⟨st.CacheMapVacbList.diff (purgeDetached Vacbs SectionSize StartOffset EndOffset l),
       st.VacbLruList.diff (purgeDetached Vacbs SectionSize StartOffset EndOffset l),
       st.DirtyVacbList.diff
         ((purgeDetached Vacbs SectionSize StartOffset EndOffset l).filter
           (fun v => (Vacbs v).Dirty)),
       countAfter Vacbs PAGE_SIZE (purgeDetached Vacbs SectionSize StartOffset EndOffset l)
         st.DirtyPageCount,
       (purgeDetached Vacbs SectionSize StartOffset EndOffset l).reverse ++ st.FreeList,
       st.Success && purgeOk Vacbs SectionSize StartOffset EndOffset l⟩ := by
  induction l generalizing st with
  | nil => cases st; simp [purgeLoop, purgeDetached, purgeOk, countAfter]
  | cons v rest ih =>
    by_cases h1 : (Vacbs v).FileOffset < StartOffset
    · simp [purgeLoop, purgeDetached, purgeOk, h1, ih]
    · by_cases h2 : ViewEnd (Vacbs v) SectionSize ≥ EndOffset
      · cases st; simp [purgeLoop, purgeDetached, purgeOk, countAfter, h1, h2]
      · by_cases h3 : (Vacbs v).ReferenceCount ≠ 0 ∧ (Vacbs v).Dirty = false
        · cases st
          rw [purgeLoop, purgeDetached, purgeOk, if_neg h1, if_neg h2, if_pos h3, if_neg h1,
            if_neg h2, if_pos h3, if_neg h1, if_neg h2, if_pos h3]
          simp [countAfter]
        · rw [purgeLoop, purgeDetached, purgeOk, if_neg h1, if_neg h2, if_neg h3, if_neg h1,
            if_neg h2, if_neg h3, if_neg h1, if_neg h2, if_neg h3, ih]
          by_cases hd : (Vacbs v).Dirty = true
          · simp [unlinkVacb, countAfter, hd, List.filter_cons]
          · simp [unlinkVacb, countAfter, hd, List.filter_cons]

theorem purgeKept_eq_diff (Vacbs : VacbId → ROS_VACB)
    (SectionSize StartOffset EndOffset : Int) (l kept : List VacbId)
    (hkept : ∀ w ∈ kept, (Vacbs w).FileOffset < StartOffset) :
    (kept ++ l).diff (purgeDetached Vacbs SectionSize StartOffset EndOffset l) =
      kept ++ purgeKept Vacbs SectionSize StartOffset EndOffset l := by
  induction l generalizing kept with
  | nil => simp [purgeDetached, purgeKept]
  | cons v rest ih =>
    by_cases h1 : (Vacbs v).FileOffset < StartOffset
    · have h := ih (kept ++ [v]) (by
        intro w hw
        rcases List.mem_append.1 hw with hw | hw
        · exact hkept w hw
        · simp at hw; subst hw; exact h1)
      simpa [purgeDetached, purgeKept, h1] using h
    · by_cases h2 : ViewEnd (Vacbs v) SectionSize ≥ EndOffset
      · simp [purgeDetached, purgeKept, h1, h2]
      · by_cases h3 : (Vacbs v).ReferenceCount ≠ 0 ∧ (Vacbs v).Dirty = false
        · rw [purgeDetached, purgeKept, if_neg h1, if_neg h2, if_pos h3, if_neg h1, if_neg h2,
            if_pos h3]
          simp
        · have hv : v ∉ kept := fun hm => h1 (hkept v hm)
          rw [purgeDetached, purgeKept, if_neg h1, if_neg h2, if_neg h3, if_neg h1, if_neg h2,
            if_neg h3, List.diff_cons, List.erase_append_right _ hv, List.erase_cons_head]
          exact ih kept hkept

theorem CcPurgeCacheSection_none (PAGE_SIZE : Nat) (s : CcState)
    (sop : SECTION_OBJECT_POINTERS) (FileOffset : Option Int) (Length : Nat) (u : Bool)
    (h : sop.SharedCacheMap = none) :
    CcPurgeCacheSection PAGE_SIZE s sop FileOffset Length u = (false, s) := by
  simp [CcPurgeCacheSection, h]

theorem CcPurgeCacheSection_some (PAGE_SIZE : Nat) (s : CcState)
    (sop : SECTION_OBJECT_POINTERS) (FileOffset : Option Int) (Length : Nat) (u : Bool)
    (m : Nat) (h : sop.SharedCacheMap = some m) :
    CcPurgeCacheSection PAGE_SIZE s sop FileOffset Length u =
      (purgeOk s.Vacbs (s.CacheMaps m).SectionSize (purgeStartOffset FileOffset)
          (purgeEndOffset FileOffset Length) (s.CacheMaps m).CacheMapVacbList,
        ⟨s.Vacbs,
         Function.update s.CacheMaps m
           ⟨(s.CacheMaps m).SectionSize, (s.CacheMaps m).FileSize,
             keptOf s m FileOffset Length, (s.CacheMaps m).FileObject⟩,
         s.FileObjects,
         s.VacbLruList.diff (detachedOf s m FileOffset Length),
         s.DirtyVacbList.diff
           ((detachedOf s m FileOffset Length).filter (fun v => (s.Vacbs v).Dirty)),
         countAfter s.Vacbs PAGE_SIZE (detachedOf s m FileOffset Length) s.DirtyPageCount,
         s.FreedVacbs ++ (detachedOf s m FileOffset Length).reverse,
         s.SignalledEvents⟩) := by
  have hk := purgeKept_eq_diff s.Vacbs (s.CacheMaps m).SectionSize
    (purgeStartOffset FileOffset) (purgeEndOffset FileOffset Length)
    (s.CacheMaps m).CacheMapVacbList [] (by simp)
  simp only [List.nil_append] at hk
  simp [CcPurgeCacheSection, h, purgeLoop_eq, freeLoop_eq, detachedOf, keptOf, hk]

/-! ## Facts about the reading of the loop -/

theorem purgeDetached_spec (Vacbs : VacbId → ROS_VACB)
    (SectionSize StartOffset EndOffset : Int) (l : List VacbId) :
    ∀ v ∈ purgeDetached Vacbs SectionSize StartOffset EndOffset l,
      v ∈ l ∧ StartOffset ≤ (Vacbs v).FileOffset ∧
        ViewEnd (Vacbs v) SectionSize < EndOffset ∧ ¬ PinnedClean (Vacbs v) := by
  induction l with
  | nil => simp [purgeDetached]
  | cons a rest ih =>
    intro v hv
    by_cases h1 : (Vacbs a).FileOffset < StartOffset
    · rw [purgeDetached, if_pos h1] at hv
      have := ih v hv
      exact ⟨List.mem_cons_of_mem _ this.1, this.2⟩
    · by_cases h2 : ViewEnd (Vacbs a) SectionSize ≥ EndOffset
      · rw [purgeDetached, if_neg h1, if_pos h2] at hv; simp at hv
      · by_cases h3 : (Vacbs a).ReferenceCount ≠ 0 ∧ (Vacbs a).Dirty = false
        · rw [purgeDetached, if_neg h1, if_neg h2, if_pos h3] at hv; simp at hv
        · rw [purgeDetached, if_neg h1, if_neg h2, if_neg h3] at hv
          rcases List.mem_cons.1 hv with hv | hv
          · subst hv
            exact ⟨List.mem_cons_self _ _, not_lt.1 h1, not_le.1 h2, h3⟩
          · have := ih v hv
            exact ⟨List.mem_cons_of_mem _ this.1, this.2⟩

theorem purgeDetached_sublist (Vacbs : VacbId → ROS_VACB)
    (SectionSize StartOffset EndOffset : Int) (l : List VacbId) :
    (purgeDetached Vacbs SectionSize StartOffset EndOffset l).Sublist l := by
  induction l with
  | nil => simp [purgeDetached]
  | cons a rest ih =>
    by_cases h1 : (Vacbs a).FileOffset < StartOffset
    · rw [purgeDetached, if_pos h1]; exact ih.cons a
    · by_cases h2 : ViewEnd (Vacbs a) SectionSize ≥ EndOffset
      · rw [purgeDetached, if_neg h1, if_pos h2]; exact List.nil_sublist _
      · by_cases h3 : (Vacbs a).ReferenceCount ≠ 0 ∧ (Vacbs a).Dirty = false
        · rw [purgeDetached, if_neg h1, if_neg h2, if_pos h3]; exact List.nil_sublist _
        · rw [purgeDetached, if_neg h1, if_neg h2, if_neg h3]; exact ih.cons₂ a

theorem purgeKept_eq (Vacbs : VacbId → ROS_VACB)
    (SectionSize StartOffset EndOffset : Int) (l : List VacbId) :
    purgeKept Vacbs SectionSize StartOffset EndOffset l =
      l.diff (purgeDetached Vacbs SectionSize StartOffset EndOffset l) := by
  have h := purgeKept_eq_diff Vacbs SectionSize StartOffset EndOffset l [] (by simp)
  simpa using h.symm

/-- Scanning a list that starts with views the scan passes over. -/
theorem purge_append (Vacbs : VacbId → ROS_VACB)
    (SectionSize StartOffset EndOffset : Int) (pre rest : List VacbId)
    (hpre : ∀ w ∈ pre, ScanPasses Vacbs SectionSize StartOffset EndOffset w) :
    purgeDetached Vacbs SectionSize StartOffset EndOffset (pre ++ rest) =
        pre.filter (fun w => decide (StartOffset ≤ (Vacbs w).FileOffset)) ++
          purgeDetached Vacbs SectionSize StartOffset EndOffset rest ∧
    purgeKept Vacbs SectionSize StartOffset EndOffset (pre ++ rest) =
        pre.filter (fun w => decide ((Vacbs w).FileOffset < StartOffset)) ++
          purgeKept Vacbs SectionSize StartOffset EndOffset rest ∧
    purgeOk Vacbs SectionSize StartOffset EndOffset (pre ++ rest) =
        purgeOk Vacbs SectionSize StartOffset EndOffset rest := by
  induction pre with
  | nil => simp
  | cons a pre ih =>
    have iha := ih (fun w hw => hpre w (List.mem_cons_of_mem _ hw))
    have hp := hpre a (List.mem_cons_self _ _)
    by_cases h1 : (Vacbs a).FileOffset < StartOffset
    · have h1' : ¬ StartOffset ≤ (Vacbs a).FileOffset := not_le.2 h1
      simp only [List.cons_append, purgeDetached, purgeKept, purgeOk, if_pos h1,
        List.filter_cons, h1, h1', decide_True, decide_False, if_true, if_false]
      exact ⟨iha.1, congrArg (List.cons a) iha.2.1, iha.2.2⟩
    · rcases hp with hp | ⟨hp2, hp3⟩
      · exact absurd hp h1
      · have h2 : ¬ ViewEnd (Vacbs a) SectionSize ≥ EndOffset := not_le.2 hp2
        have h1' : StartOffset ≤ (Vacbs a).FileOffset := not_lt.1 h1
        have h3 : ¬ ((Vacbs a).ReferenceCount ≠ 0 ∧ (Vacbs a).Dirty = false) := hp3
        rw [List.cons_append, purgeDetached, purgeKept, purgeOk, if_neg h1, if_neg h2,
          if_neg h3, if_neg h1, if_neg h2, if_neg h3, if_neg h1, if_neg h2, if_neg h3]
        simp only [List.filter_cons, h1, h1', decide_True, decide_False, if_true, if_false]
        exact ⟨congrArg (List.cons a) iha.1, iha.2.1, iha.2.2⟩

/-- A scan that reaches a view in range that is referenced and clean stops
there: nothing from that view on is unlinked and the result is FALSE. -/
theorem purge_abort (Vacbs : VacbId → ROS_VACB)
    (SectionSize StartOffset EndOffset : Int) (v : VacbId) (post : List VacbId)
    (h1 : StartOffset ≤ (Vacbs v).FileOffset)
    (h2 : ViewEnd (Vacbs v) SectionSize < EndOffset) (h3 : PinnedClean (Vacbs v)) :
    purgeDetached Vacbs SectionSize StartOffset EndOffset (v :: post) = [] ∧
    purgeKept Vacbs SectionSize StartOffset EndOffset (v :: post) = v :: post ∧
    purgeOk Vacbs SectionSize StartOffset EndOffset (v :: post) = false := by
  have h1' : ¬ (Vacbs v).FileOffset < StartOffset := not_lt.2 h1
  have h2' : ¬ ViewEnd (Vacbs v) SectionSize ≥ EndOffset := not_le.2 h2
  have h3' : (Vacbs v).ReferenceCount ≠ 0 ∧ (Vacbs v).Dirty = false := h3
  rw [purgeDetached, purgeKept, purgeOk, if_neg h1', if_neg h2', if_pos h3', if_neg h1',
    if_neg h2', if_pos h3', if_neg h1', if_neg h2', if_pos h3']
  exact ⟨rfl, rfl, rfl⟩

/-- Unlinking entries other than `v` leaves `v` where it is: what stood before
it still stands before it, what stood after it still stands after it. -/
theorem diff_keeps_position (v : VacbId) (d : List VacbId) (hv : v ∉ d) :
    ∀ A B : List VacbId, ∃ A1 B1, (A ++ v :: B).diff d = A1 ++ v :: B1 ∧
      A1.Sublist A ∧ B1.Sublist B := by
  induction d with
  | nil => intro A B; exact ⟨A, B, by simp, List.Sublist.refl _, List.Sublist.refl _⟩
  | cons w d ih =>
    intro A B
    have hwv : w ≠ v := fun h => hv (by simp [h])
    have hvd : v ∉ d := fun h => hv (List.mem_cons_of_mem _ h)
    rw [List.diff_cons]
    by_cases hw : w ∈ A
    · rw [List.erase_append_left _ hw]
      obtain ⟨A1, B1, h, hA, hB⟩ := ih hvd (A.erase w) B
      exact ⟨A1, B1, h, hA.trans (List.erase_sublist _ _), hB⟩
    · rw [List.erase_append_right _ hw, List.erase_cons_tail (by simpa using Ne.symm hwv)]
      obtain ⟨A1, B1, h, hA, hB⟩ := ih hvd A (B.erase w)
      exact ⟨A1, B1, h, hA, hB.trans (List.erase_sublist _ _)⟩

/-! ## Arithmetic of the window end -/

theorem wrapLONGLONG_eq (x : Int) (h0 : -9223372036854775808 ≤ x) (h1 : x ≤ MAXLONGLONG) :
    wrapLONGLONG x = x := by
  unfold MAXLONGLONG at h1
  unfold wrapLONGLONG
  omega

theorem ViewEnd_eq (Vacb : ROS_VACB) (SectionSize : Int) (h0 : 0 ≤ Vacb.FileOffset)
    (h1 : Vacb.FileOffset + (VACB_MAPPING_GRANULARITY : Int) ≤ MAXLONGLONG) :
    ViewEnd Vacb SectionSize =
      min (Vacb.FileOffset + (VACB_MAPPING_GRANULARITY : Int)) SectionSize := by
  unfold ViewEnd
  rw [wrapLONGLONG_eq _ (by simp only [VACB_MAPPING_GRANULARITY]; omega) h1]

theorem ViewEnd_le_SectionSize (Vacb : ROS_VACB) (SectionSize : Int) :
    ViewEnd Vacb SectionSize ≤ SectionSize := by
  unfold ViewEnd
  exact min_le_right _ _

/-! ## Purge monotonicity -/

theorem wrapLONGLONG_le (x : Int) (h : -9223372036854775808 ≤ x) : wrapLONGLONG x ≤ x := by
  unfold wrapLONGLONG
  omega

/-- The views left by a successful scan of a list in non-decreasing offset
order are the skipped ones and those whose capped window end reaches the end
offset. -/
theorem purgeKept_sorted (Vacbs : VacbId → ROS_VACB)
    (SectionSize StartOffset EndOffset : Int) (l : List VacbId)
    (hsorted : l.Pairwise (fun a b => (Vacbs a).FileOffset ≤ (Vacbs b).FileOffset))
    (hstart : -9223372036854775808 ≤ StartOffset)
    (hok : purgeOk Vacbs SectionSize StartOffset EndOffset l = true) :
    ∀ v ∈ purgeKept Vacbs SectionSize StartOffset EndOffset l,
      (Vacbs v).FileOffset < StartOffset ∨
        EndOffset ≤ min ((Vacbs v).FileOffset + (VACB_MAPPING_GRANULARITY : Int)) SectionSize := by
  induction l with
  | nil => simp [purgeKept]
  | cons a rest ih =>
    have hs := List.pairwise_cons.1 hsorted
    by_cases h1 : (Vacbs a).FileOffset < StartOffset
    · rw [purgeOk, if_pos h1] at hok
      rw [purgeKept, if_pos h1]
      intro v hv
      rcases List.mem_cons.1 hv with hv | hv
      · subst hv; exact Or.inl h1
      · exact ih hs.2 hok v hv
    · by_cases h2 : ViewEnd (Vacbs a) SectionSize ≥ EndOffset
      · rw [purgeKept, if_neg h1, if_pos h2]
        have hw := wrapLONGLONG_le ((Vacbs a).FileOffset + (VACB_MAPPING_GRANULARITY : Int))
          (by simp only [VACB_MAPPING_GRANULARITY]; omega)
        have h2a : EndOffset ≤
            min ((Vacbs a).FileOffset + (VACB_MAPPING_GRANULARITY : Int)) SectionSize := by
          unfold ViewEnd at h2
          omega
        intro v hv
        right
        rcases List.mem_cons.1 hv with hv | hv
        · subst hv; exact h2a
        · have hle := hs.1 v hv
          omega
      · by_cases h3 : (Vacbs a).ReferenceCount ≠ 0 ∧ (Vacbs a).Dirty = false
        · rw [purgeOk, if_neg h1, if_neg h2, if_pos h3] at hok
          exact absurd hok (by decide)
        · rw [purgeOk, if_neg h1, if_neg h2, if_neg h3] at hok
          rw [purgeKept, if_neg h1, if_neg h2, if_neg h3]
          exact ih hs.2 hok

/-- C1, counterexample: with one clean unreferenced view at offset 0 of a
1 MiB section, the purge of the range starting at 0 of length 4096 returns
TRUE and the view, whose offset 0 lies in the range, is still in the view
list. Its window reaches 262144, beyond the end offset 4096: it is only
partially in range, and the loop leaves such views linked. -/
theorem purge_monotonicity_counterexample :
    ¬ PurgeMonotonicityAsStated 4096 stateOneView 0 0 4096 := by
  intro h
  have hsorted : (stateOneView.CacheMaps 0).CacheMapVacbList.Pairwise
      (fun a b => (stateOneView.Vacbs a).FileOffset ≤ (stateOneView.Vacbs b).FileOffset) := by
    simp [stateOneView, exampleState]
  exact h hsorted (by decide) (by decide) (by decide) (by decide) 0 (by decide)
    ⟨by decide, by decide⟩

/-- The boundary case of the stop test. The same view with the range starting
at 0 of length 262144 lies wholly in the range, its window end 262144 being
the end offset; the loop stops on `ViewEnd >= EndOffset`, the call returns
TRUE and the view stays linked, although the comment of the loop excludes
only the views outside the range or partially in range. Likewise in
`stateTwoClean` with length 524288 the view at 256 KiB stays. -/
theorem purge_boundary_view_stays :
    (CcPurgeCacheSection 4096 stateOneView ⟨some 0⟩ (some 0) 262144 false).1 = true ∧
    ((CcPurgeCacheSection 4096 stateOneView ⟨some 0⟩ (some 0) 262144 false).2.CacheMaps
      0).CacheMapVacbList = [0] ∧
    (CcPurgeCacheSection 4096 stateTwoClean ⟨some 0⟩ (some 0) 524288 false).1 = true ∧
    ((CcPurgeCacheSection 4096 stateTwoClean ⟨some 0⟩ (some 0) 524288 false).2.CacheMaps
      0).CacheMapVacbList = [1] :=
  ⟨by decide, by decide, by decide, by decide⟩

/-- C1, amended: on a view list in non-decreasing offset order, with a start
offset at or above 0, a positive length and start + length not overflowing, a
purge that returns TRUE leaves in the view list no view that starts at or
after the start offset and whose capped window end
min (offset + granularity, section size) is strictly below start + length.
Nothing is stated about a view whose capped window end equals start +
length. -/
theorem purge_monotonicity_strict (PAGE_SIZE : Nat) (s : CcState) (m : Nat)
    (StartOffset : Int) (Length : Nat) (u : Bool)
    (hsorted : (s.CacheMaps m).CacheMapVacbList.Pairwise
      (fun a b => (s.Vacbs a).FileOffset ≤ (s.Vacbs b).FileOffset))
    (hstart : 0 ≤ StartOffset) (hlen : 0 < Length)
    (hsum : StartOffset + (Length : Int) ≤ MAXLONGLONG)
    (hok : (CcPurgeCacheSection PAGE_SIZE s ⟨some m⟩ (some StartOffset) Length u).1 = true) :
    ∀ v ∈ ((CcPurgeCacheSection PAGE_SIZE s ⟨some m⟩ (some StartOffset) Length
        u).2.CacheMaps m).CacheMapVacbList,
      ¬ (StartOffset ≤ (s.Vacbs v).FileOffset ∧
          min ((s.Vacbs v).FileOffset + (VACB_MAPPING_GRANULARITY : Int))
            (s.CacheMaps m).SectionSize < StartOffset + (Length : Int)) := by
  rw [CcPurgeCacheSection_some PAGE_SIZE s ⟨some m⟩ (some StartOffset) Length u m rfl] at hok ⊢
  have hend : purgeEndOffset (some StartOffset) Length = StartOffset + (Length : Int) := by
    have hl : Length ≠ 0 := by omega
    simp only [purgeEndOffset, purgeStartOffset, hl, false_or, reduceCtorEq, if_false]
    exact wrapLONGLONG_eq _ (by omega) hsum
  intro v hv
  simp only [Function.update_same, keptOf, hend, purgeStartOffset] at hv
  simp only [hend, purgeStartOffset] at hok
  have := purgeKept_sorted s.Vacbs _ _ _ _ hsorted (by omega) hok v hv
  omega

/-- C1, witness of the amended statement: views at 0 and 256 KiB of a 512 KiB
section, purge of 300000 bytes from 0. The call returns TRUE, the view at 0
(window end 262144) is unlinked, and the view left, at 256 KiB, has the
capped window end 524288, not below 300000. -/
theorem purge_monotonicity_strict_witness :
    (CcPurgeCacheSection 4096 stateTwoClean ⟨some 0⟩ (some 0) 300000 false).1 = true ∧
    ((CcPurgeCacheSection 4096 stateTwoClean ⟨some 0⟩ (some 0) 300000 false).2.CacheMaps
      0).CacheMapVacbList = [1] ∧
    ∀ v ∈ ((CcPurgeCacheSection 4096 stateTwoClean ⟨some 0⟩ (some 0) 300000
        false).2.CacheMaps 0).CacheMapVacbList,
      ¬ ((0 : Int) ≤ (stateTwoClean.Vacbs v).FileOffset ∧
          min ((stateTwoClean.Vacbs v).FileOffset + (VACB_MAPPING_GRANULARITY : Int))
            (stateTwoClean.CacheMaps 0).SectionSize < (0 : Int) + ((300000 : Nat) : Int)) :=
  ⟨by decide, by decide,
   purge_monotonicity_strict 4096 stateTwoClean 0 0 300000 false
    (by decide) (by decide) (by decide) (by decide) (by decide)⟩

/-! ## Purge safety -/

/-- C2, purge safety: a view with a positive reference count and a clear
dirty flag is never unlinked by `CcPurgeCacheSection`, whatever the state and
the arguments. It is not handed to the view destroyer; it keeps its place in
every view list it is in and in the recency list (the entries before it stay
before it, the entries after it stay after it), and stays in the dirty list
if it was there; the view arena is unchanged. If the scan reaches it while it
is in range, the call returns FALSE. -/
theorem purge_safety (PAGE_SIZE : Nat) (s : CcState) (sop : SECTION_OBJECT_POINTERS)
    (FileOffset : Option Int) (Length : Nat) (u : Bool) (v : VacbId)
    (hrc : 0 < (s.Vacbs v).ReferenceCount) (hclean : (s.Vacbs v).Dirty = false) :
    (∃ D, (CcPurgeCacheSection PAGE_SIZE s sop FileOffset Length u).2.FreedVacbs =
        s.FreedVacbs ++ D ∧ v ∉ D) ∧
    (∀ m A B, (s.CacheMaps m).CacheMapVacbList = A ++ v :: B →
      ∃ A1 B1, ((CcPurgeCacheSection PAGE_SIZE s sop FileOffset Length u).2.CacheMaps
          m).CacheMapVacbList = A1 ++ v :: B1 ∧ A1.Sublist A ∧ B1.Sublist B) ∧
    (∀ A B, s.VacbLruList = A ++ v :: B →
      ∃ A1 B1, (CcPurgeCacheSection PAGE_SIZE s sop FileOffset Length u).2.VacbLruList =
          A1 ++ v :: B1 ∧ A1.Sublist A ∧ B1.Sublist B) ∧
    (v ∈ s.DirtyVacbList →
      v ∈ (CcPurgeCacheSection PAGE_SIZE s sop FileOffset Length u).2.DirtyVacbList) ∧
    (CcPurgeCacheSection PAGE_SIZE s sop FileOffset Length u).2.Vacbs = s.Vacbs ∧
    (∀ m pre post, sop.SharedCacheMap = some m →
      (s.CacheMaps m).CacheMapVacbList = pre ++ v :: post →
      (∀ w ∈ pre, ScanPasses s.Vacbs (s.CacheMaps m).SectionSize
        (purgeStartOffset FileOffset) (purgeEndOffset FileOffset Length) w) →
      purgeStartOffset FileOffset ≤ (s.Vacbs v).FileOffset →
      ViewEnd (s.Vacbs v) (s.CacheMaps m).SectionSize < purgeEndOffset FileOffset Length →
      (CcPurgeCacheSection PAGE_SIZE s sop FileOffset Length u).1 = false) := by
  have hpc : PinnedClean (s.Vacbs v) := ⟨by omega, hclean⟩
  rcases hm : sop.SharedCacheMap with _ | m
  · rw [CcPurgeCacheSection_none PAGE_SIZE s sop FileOffset Length u hm]
    refine ⟨⟨[], by simp, by simp⟩, ?_, ?_, ?_, rfl, ?_⟩
    · intro m A B h
      exact ⟨A, B, h, List.Sublist.refl _, List.Sublist.refl _⟩
    · intro A B h
      exact ⟨A, B, h, List.Sublist.refl _, List.Sublist.refl _⟩
    · exact fun h => h
    · intro m pre post h
      exact absurd h (by simp)
  · rw [CcPurgeCacheSection_some PAGE_SIZE s sop FileOffset Length u m hm]
    have hvd : v ∉ detachedOf s m FileOffset Length := fun h =>
      (purgeDetached_spec _ _ _ _ _ v h).2.2.2 hpc
    refine ⟨⟨_, rfl, by simpa using hvd⟩, ?_, ?_, ?_, rfl, ?_⟩
    · intro m1 A B h
      by_cases hm1 : m1 = m
      · subst hm1
        simp only [Function.update_same, keptOf, purgeKept_eq]
        rw [h]
        have hvd1 := hvd
        simp only [detachedOf, h] at hvd1
        exact diff_keeps_position v _ hvd1 A B
      · simp only [Function.update_noteq hm1]
        exact ⟨A, B, h, List.Sublist.refl _, List.Sublist.refl _⟩
    · intro A B h
      simp only [h]
      exact diff_keeps_position v _ hvd A B
    · intro h
      exact List.mem_diff_of_mem h (fun hf => hvd (List.mem_filter.1 hf).1)
    · intro m1 pre post h1 hl hpre hstart hend
      obtain rfl : m = m1 := by simpa using h1
      simp only [hl]
      rw [(purge_append _ _ _ _ pre (v :: post) hpre).2.2]
      exact (purge_abort _ _ _ _ v post hstart hend hpc).2.2

/-- C2, witness: in `statePinnedFirst` the view 0 is referenced and clean; the
unbounded purge from offset 0 leaves it alone and returns FALSE. -/
theorem purge_safety_witness :
    (CcPurgeCacheSection 4096 statePinnedFirst ⟨some 0⟩ (some 0) 0 false).1 = false ∧
    0 ∈ ((CcPurgeCacheSection 4096 statePinnedFirst ⟨some 0⟩ (some 0) 0
      false).2.CacheMaps 0).CacheMapVacbList ∧
    ∃ D, (CcPurgeCacheSection 4096 statePinnedFirst ⟨some 0⟩ (some 0) 0 false).2.FreedVacbs =
        statePinnedFirst.FreedVacbs ++ D ∧ 0 ∉ D :=
  ⟨by decide, by decide,
   (purge_safety 4096 statePinnedFirst ⟨some 0⟩ (some 0) 0 false 0 (by decide)
    (by decide)).1⟩

/-! ## The dirty page counter -/

theorem subULONG_eq (c k : Nat) (hc : c < 4294967296) (hk : k ≤ c) : subULONG c k = c - k := by
  unfold subULONG
  omega

/-- Unlinking distinct views, each of which is on the dirty list when its
dirty flag is set, keeps the counter equal to the page span times the length
of the dirty list, without wrapping. -/
theorem countAfter_invariant (Vacbs : VacbId → ROS_VACB) (PAGE_SIZE : Nat)
    (d : List VacbId) (hd : d.Nodup) :
    ∀ (dirty : List VacbId) (c : Nat),
      (∀ v ∈ d, (Vacbs v).Dirty = true → v ∈ dirty) →
      c = (VACB_MAPPING_GRANULARITY / PAGE_SIZE) * dirty.length →
      c < 4294967296 →
      countAfter Vacbs PAGE_SIZE d c =
          (VACB_MAPPING_GRANULARITY / PAGE_SIZE) *
            (dirty.diff (d.filter (fun v => (Vacbs v).Dirty))).length ∧
        (dirty.diff (d.filter (fun v => (Vacbs v).Dirty))).length ≤ dirty.length := by
  induction d with
  | nil => intro dirty c _ hc _; simp [countAfter, hc]
  | cons a d ih =>
    intro dirty c hmem hc h32
    have hnd := List.nodup_cons.1 hd
    by_cases ha : (Vacbs a).Dirty = true
    · have hin : a ∈ dirty := hmem a (List.mem_cons_self _ _) ha
      have hlen : (dirty.erase a).length = dirty.length - 1 := List.length_erase_of_mem hin
      have hpos : 0 < dirty.length := List.length_pos_of_mem hin
      have hk : VACB_MAPPING_GRANULARITY / PAGE_SIZE ≤ c := by
        rw [hc]; exact Nat.le_mul_of_pos_right _ hpos
      have hmem1 : ∀ v ∈ d, (Vacbs v).Dirty = true → v ∈ dirty.erase a := by
        intro v hv hvd
        have hne : v ≠ a := fun h => hnd.1 (h ▸ hv)
        exact (List.mem_erase_of_ne hne).2 (hmem v (List.mem_cons_of_mem _ hv) hvd)
      have hc1 : c - VACB_MAPPING_GRANULARITY / PAGE_SIZE =
          (VACB_MAPPING_GRANULARITY / PAGE_SIZE) * (dirty.erase a).length := by
        rw [hlen, Nat.mul_sub, Nat.mul_one, hc]
      have h := ih hnd.2 (dirty.erase a) (c - VACB_MAPPING_GRANULARITY / PAGE_SIZE) hmem1 hc1
        (lt_of_le_of_lt (Nat.sub_le _ _) h32)
      simp only [countAfter, ha, if_true, List.filter_cons, List.diff_cons]
      rw [subULONG_eq c _ h32 hk]
      exact ⟨h.1, by omega⟩
    · have hmem1 : ∀ v ∈ d, (Vacbs v).Dirty = true → v ∈ dirty :=
        fun v hv hvd => hmem v (List.mem_cons_of_mem _ hv) hvd
      have h := ih hnd.2 dirty c hmem1 hc h32
      simpa [countAfter, ha, List.filter_cons] using h

/-- C3, dirty-count invariant: if the 32-bit `DirtyPageCount` equals the page
span of a view, VACB_MAPPING_GRANULARITY / PAGE_SIZE, times the number of
views on the dirty list, and each view of the purged file (linked once into
its view list) is on the dirty list iff its dirty flag is set, then after
`CcPurgeCacheSection`, whatever it returns, the counter again equals the page
span times the length of the new dirty list, and no subtraction wrapped: the
old counter is the new counter plus the page span of the views removed. -/
theorem dirty_count_invariant (PAGE_SIZE : Nat) (s : CcState)
    (sop : SECTION_OBJECT_POINTERS) (FileOffset : Option Int) (Length : Nat) (u : Bool)
    (h32 : s.DirtyPageCount < 4294967296)
    (hcount : s.DirtyPageCount =
      (VACB_MAPPING_GRANULARITY / PAGE_SIZE) * s.DirtyVacbList.length)
    (hnodup : ∀ m, sop.SharedCacheMap = some m → (s.CacheMaps m).CacheMapVacbList.Nodup)
    (hmem : ∀ m, sop.SharedCacheMap = some m → ∀ v ∈ (s.CacheMaps m).CacheMapVacbList,
      (v ∈ s.DirtyVacbList ↔ (s.Vacbs v).Dirty = true)) :
    (CcPurgeCacheSection PAGE_SIZE s sop FileOffset Length u).2.DirtyPageCount =
        (VACB_MAPPING_GRANULARITY / PAGE_SIZE) *
          (CcPurgeCacheSection PAGE_SIZE s sop FileOffset Length u).2.DirtyVacbList.length ∧
    (CcPurgeCacheSection PAGE_SIZE s sop FileOffset Length u).2.DirtyVacbList.length ≤
        s.DirtyVacbList.length ∧
    s.DirtyPageCount =
        (CcPurgeCacheSection PAGE_SIZE s sop FileOffset Length u).2.DirtyPageCount +
          (VACB_MAPPING_GRANULARITY / PAGE_SIZE) *
            (s.DirtyVacbList.length -
              (CcPurgeCacheSection PAGE_SIZE s sop FileOffset Length u).2.DirtyVacbList.length) := by
  rcases hm : sop.SharedCacheMap with _ | m
  · rw [CcPurgeCacheSection_none PAGE_SIZE s sop FileOffset Length u hm]
    simp [hcount]
  · rw [CcPurgeCacheSection_some PAGE_SIZE s sop FileOffset Length u m hm]
    have hd : (detachedOf s m FileOffset Length).Nodup :=
      (hnodup m hm).sublist (purgeDetached_sublist _ _ _ _ _)
    have hin : ∀ v ∈ detachedOf s m FileOffset Length,
        (s.Vacbs v).Dirty = true → v ∈ s.DirtyVacbList := fun v hv hvd =>
      (hmem m hm v (purgeDetached_spec _ _ _ _ _ v hv).1).2 hvd
    have h := countAfter_invariant s.Vacbs PAGE_SIZE _ hd s.DirtyVacbList s.DirtyPageCount
      hin hcount h32
    refine ⟨h.1, h.2, ?_⟩
    simp only
    rw [h.1, hcount, ← Nat.mul_add]
    congr 1
    omega

/-- C3, witness: in `stateDirtyView` with 4096-byte pages the counter is 64
and one view is dirty; after the unbounded purge the counter is 0 and the
dirty list is empty. -/
theorem dirty_count_invariant_witness :
    (CcPurgeCacheSection 4096 stateDirtyView ⟨some 0⟩ (some 0) 0 false).2.DirtyPageCount = 0 ∧
    (CcPurgeCacheSection 4096 stateDirtyView ⟨some 0⟩ (some 0) 0 false).2.DirtyVacbList = [] ∧
    (CcPurgeCacheSection 4096 stateDirtyView ⟨some 0⟩ (some 0) 0 false).2.DirtyPageCount =
        (VACB_MAPPING_GRANULARITY / 4096) *
          (CcPurgeCacheSection 4096 stateDirtyView ⟨some 0⟩ (some 0) 0
            false).2.DirtyVacbList.length :=
  ⟨by decide, by decide,
   (dirty_count_invariant 4096 stateDirtyView ⟨some 0⟩ (some 0) 0 false (by decide)
    (by decide)
    (by
      intro m hm
      obtain rfl : 0 = m := by simpa using hm
      decide)
    (by
      intro m hm
      obtain rfl : 0 = m := by simpa using hm
      decide)).1⟩

/-! ## Membership in the dirty list -/

theorem sameLinks_refl (s : CcState) : SameLinks s s := ⟨rfl, rfl, fun _ => rfl⟩

theorem dirtyMembership_of_sameLinks {s t : CcState} (h : DirtyMembership s)
    (hl : SameLinks s t) : DirtyMembership t := by
  intro m v hv
  rw [hl.2.2 m] at hv
  rw [hl.1, hl.2.1]
  exact h m v hv

theorem listsWellFormed_of_sameLinks {s t : CcState} (h : ListsWellFormed s)
    (hl : SameLinks s t) : ListsWellFormed t := by
  refine ⟨by rw [hl.2.1]; exact h.1, fun m => by rw [hl.2.2 m]; exact h.2.1 m, ?_⟩
  intro m v hv
  rw [hl.2.2 m] at hv
  rw [hl.1]
  exact h.2.2 m v hv

theorem noDetachedDirty_of_sameLinks_right {s t t1 : CcState} (h : NoDetachedDirty s t)
    (hl : SameLinks t t1) : NoDetachedDirty s t1 := by
  intro m v hv hnot
  rw [hl.2.2 m] at hnot
  rw [hl.2.1]
  exact h m v hv hnot

theorem noDetachedDirty_of_sameLinks_left {s s1 t : CcState} (h : NoDetachedDirty s1 t)
    (hl : SameLinks s s1) : NoDetachedDirty s t := by
  intro m v hv hnot
  rw [← hl.2.2 m] at hv
  exact h m v hv hnot

theorem noDetachedDirty_refl (s : CcState) : NoDetachedDirty s s :=
  fun _ _ hv hnot => absurd hv hnot

/-- Writing the size fields of one cache map changes no link. -/
theorem sameLinks_setSizes (s : CcState) (m : Nat) (SectionSize FileSize : Int) :
    SameLinks s
      ⟨s.Vacbs,
       Function.update s.CacheMaps m
         ⟨SectionSize, FileSize, (s.CacheMaps m).CacheMapVacbList, (s.CacheMaps m).FileObject⟩,
       s.FileObjects, s.VacbLruList, s.DirtyVacbList, s.DirtyPageCount,
       s.FreedVacbs, s.SignalledEvents⟩ := by
  refine ⟨rfl, rfl, fun m1 => ?_⟩
  by_cases h : m1 = m
  · subst h; simp
  · simp [Function.update_noteq h]

/-- The purge keeps the membership rule and leaves no unlinked view on the
dirty list. -/
theorem purge_dirtyMembership (PAGE_SIZE : Nat) (s : CcState)
    (sop : SECTION_OBJECT_POINTERS) (FileOffset : Option Int) (Length : Nat) (u : Bool)
    (hwf : ListsWellFormed s) (hinv : DirtyMembership s) :
    DirtyMembership (CcPurgeCacheSection PAGE_SIZE s sop FileOffset Length u).2 ∧
    NoDetachedDirty s (CcPurgeCacheSection PAGE_SIZE s sop FileOffset Length u).2 := by
  rcases hm : sop.SharedCacheMap with _ | m
  · rw [CcPurgeCacheSection_none PAGE_SIZE s sop FileOffset Length u hm]
    exact ⟨hinv, noDetachedDirty_refl s⟩
  · rw [CcPurgeCacheSection_some PAGE_SIZE s sop FileOffset Length u m hm]
    have hdl : ∀ v ∈ detachedOf s m FileOffset Length, v ∈ (s.CacheMaps m).CacheMapVacbList :=
      fun v hv => (purgeDetached_spec _ _ _ _ _ v hv).1
    have hkept : keptOf s m FileOffset Length =
        (s.CacheMaps m).CacheMapVacbList.diff (detachedOf s m FileOffset Length) :=
      purgeKept_eq _ _ _ _ _
    constructor
    · intro m1 v hv
      simp only at hv ⊢
      have hv0 : v ∈ (s.CacheMaps m1).CacheMapVacbList ∧
          v ∉ detachedOf s m FileOffset Length := by
        by_cases h : m1 = m
        · subst h
          rw [Function.update_same] at hv
          simp only [hkept] at hv
          exact ((hwf.2.1 m1).mem_diff_iff).1 hv
        · rw [Function.update_noteq h] at hv
          refine ⟨hv, fun hd => h ?_⟩
          rw [← hwf.2.2 m1 v hv, ← hwf.2.2 m v (hdl v hd)]
      rw [hwf.1.mem_diff_iff, ← hinv m1 v hv0.1]
      constructor
      · exact fun h => h.1
      · exact fun h => ⟨h, fun hf => hv0.2 (List.mem_filter.1 hf).1⟩
    · intro m1 v hv hnot
      simp only at hnot ⊢
      by_cases h : m1 = m
      · subst h
        rw [Function.update_same] at hnot
        simp only [hkept] at hnot
        have hd : v ∈ detachedOf s m1 FileOffset Length := by
          by_contra hd
          exact hnot (List.mem_diff_of_mem hv hd)
        rw [hwf.1.mem_diff_iff]
        by_cases hdv : (s.Vacbs v).Dirty = true
        · exact fun hc => hc.2 (List.mem_filter.2 ⟨hd, by simpa using hdv⟩)
        · exact fun hc => hdv ((hinv m1 v hv).1 hc.1)
      · rw [Function.update_noteq h] at hnot
        exact absurd hv hnot

/-- C4, membership exclusivity: in a state whose lists are well formed and in
which every view linked into a view list is on the dirty list iff its dirty
flag is set, the same holds after `CcPurgeCacheSection`, after
`CcSetFileSizes` and after the truncate step of `CcUninitializeCacheMap`, for
every view still linked into a view list; and no view unlinked by the call is
left on the dirty list. -/
theorem membership_exclusivity_preserved (PAGE_SIZE : Nat) (s : CcState)
    (hwf : ListsWellFormed s) (hinv : DirtyMembership s) :
    (∀ sop FileOffset Length u,
      DirtyMembership (CcPurgeCacheSection PAGE_SIZE s sop FileOffset Length u).2 ∧
      NoDetachedDirty s (CcPurgeCacheSection PAGE_SIZE s sop FileOffset Length u).2) ∧
    (∀ FileObject FileSizes sop, (s.FileObjects FileObject).SectionObjectPointer = some sop →
      ∃ t, CcSetFileSizes PAGE_SIZE s FileObject FileSizes = some t ∧
        DirtyMembership t ∧ NoDetachedDirty s t) ∧
    (∀ FileObject TruncateSize,
      DirtyMembership (uninitializeTruncate PAGE_SIZE s FileObject TruncateSize) ∧
      NoDetachedDirty s (uninitializeTruncate PAGE_SIZE s FileObject TruncateSize)) := by
  refine ⟨fun sop FileOffset Length u =>
    purge_dirtyMembership PAGE_SIZE s sop FileOffset Length u hwf hinv, ?_, ?_⟩
  · intro FileObject FileSizes sop hsop
    rcases hm : sop.SharedCacheMap with _ | m
    · exact ⟨s, by simp [CcSetFileSizes, hsop, hm], hinv, noDetachedDirty_refl s⟩
    · by_cases hlt : FileSizes.AllocationSize < (s.CacheMaps m).SectionSize
      · have hp := purge_dirtyMembership PAGE_SIZE s sop (some FileSizes.AllocationSize) 0
          false hwf hinv
        refine ⟨_, by simp only [CcSetFileSizes, hsop, hm, hlt, if_true]; rfl, ?_, ?_⟩
        · exact dirtyMembership_of_sameLinks hp.1 (sameLinks_setSizes _ m _ _)
        · exact noDetachedDirty_of_sameLinks_right hp.2 (sameLinks_setSizes _ m _ _)
      · refine ⟨_, by simp only [CcSetFileSizes, hsop, hm, hlt, if_false]; rfl, ?_, ?_⟩
        · exact dirtyMembership_of_sameLinks hinv (sameLinks_setSizes _ m _ _)
        · exact noDetachedDirty_of_sameLinks_right (noDetachedDirty_refl s) (sameLinks_setSizes _ m _ _)
  · intro FileObject TruncateSize
    rcases TruncateSize with _ | QuadPart
    · exact ⟨by simpa [uninitializeTruncate] using hinv,
        by simpa [uninitializeTruncate] using noDetachedDirty_refl s⟩
    · rcases hsop : (s.FileObjects FileObject).SectionObjectPointer with _ | sop
      · exact ⟨by simpa [uninitializeTruncate, hsop] using hinv,
          by simpa [uninitializeTruncate, hsop] using noDetachedDirty_refl s⟩
      · rcases hm : sop.SharedCacheMap with _ | m
        · exact ⟨by simpa [uninitializeTruncate, hsop, hm] using hinv,
            by simpa [uninitializeTruncate, hsop, hm] using noDetachedDirty_refl s⟩
        · by_cases hgt : (s.CacheMaps m).FileSize > QuadPart
          · have hl := sameLinks_setSizes s m (s.CacheMaps m).SectionSize QuadPart
            have hp := purge_dirtyMembership PAGE_SIZE _ sop (some QuadPart) 0 false
              (listsWellFormed_of_sameLinks hwf hl) (dirtyMembership_of_sameLinks hinv hl)
            simp only [uninitializeTruncate, hsop, hm, hgt, if_true]
            exact ⟨hp.1, noDetachedDirty_of_sameLinks_left hp.2 hl⟩
          · simp only [uninitializeTruncate, hsop, hm, hgt, if_false]
            exact purge_dirtyMembership PAGE_SIZE s sop (some QuadPart) 0 false hwf hinv

theorem stateDirtyView_wellFormed : ListsWellFormed stateDirtyView := by
  refine ⟨by decide, fun m => ?_, fun m v hv => ?_⟩
  · by_cases h : m = 0 <;> simp [stateDirtyView, exampleState, h]
  · by_cases h : m = 0
    · subst h
      have hv1 : v = 0 ∨ v = 1 := by simpa [stateDirtyView, exampleState] using hv
      rcases hv1 with rfl | rfl <;> rfl
    · simp [stateDirtyView, exampleState, h] at hv

theorem stateDirtyView_membership : DirtyMembership stateDirtyView := by
  intro m v hv
  by_cases h : m = 0
  · subst h
    have hv1 : v = 0 ∨ v = 1 := by simpa [stateDirtyView, exampleState] using hv
    rcases hv1 with rfl | rfl <;> decide
  · simp [stateDirtyView, exampleState, h] at hv

/-- C4, witness: `stateDirtyView` is well formed and obeys the membership
rule; the unbounded purge from offset 0 unlinks both of its views, the dirty
one included, and the rule holds afterwards with an empty dirty list. -/
theorem membership_exclusivity_preserved_witness :
    ListsWellFormed stateDirtyView ∧ DirtyMembership stateDirtyView ∧
    (CcPurgeCacheSection 4096 stateDirtyView ⟨some 0⟩ (some 0) 0 false).2.DirtyVacbList = [] ∧
    DirtyMembership (CcPurgeCacheSection 4096 stateDirtyView ⟨some 0⟩ (some 0) 0 false).2 ∧
    NoDetachedDirty stateDirtyView
      (CcPurgeCacheSection 4096 stateDirtyView ⟨some 0⟩ (some 0) 0 false).2 :=
  ⟨stateDirtyView_wellFormed, stateDirtyView_membership, by decide,
   (membership_exclusivity_preserved 4096 stateDirtyView stateDirtyView_wellFormed
      stateDirtyView_membership).1 ⟨some 0⟩ (some 0) 0 false⟩

/-! ## CcIsThereDirtyData -/

theorem dirtyScan_iff (FO_TEMPORARY_FILE : Nat) (s : CcState) (Vpb : Nat) (l : List VacbId) :
    dirtyScan FO_TEMPORARY_FILE s Vpb l = true ↔
      ∃ v ∈ l, (owningFile s v).Vpb = Vpb ∧
        BooleanFlagOn (owningFile s v).Flags FO_TEMPORARY_FILE = false ∧
        (s.Vacbs v).Dirty = true := by
  induction l with
  | nil => simp [dirtyScan]
  | cons a rest ih =>
    by_cases h1 : (owningFile s a).Vpb ≠ Vpb
    · have e : dirtyScan FO_TEMPORARY_FILE s Vpb (a :: rest) =
          dirtyScan FO_TEMPORARY_FILE s Vpb rest := by
        simp only [dirtyScan]; exact if_pos h1
      rw [e, ih]
      constructor
      · rintro ⟨v, hv, h⟩; exact ⟨v, List.mem_cons_of_mem _ hv, h⟩
      · rintro ⟨v, hv, h⟩
        rcases List.mem_cons.1 hv with rfl | hv
        · exact absurd h.1 h1
        · exact ⟨v, hv, h⟩
    · by_cases h2 : BooleanFlagOn (owningFile s a).Flags FO_TEMPORARY_FILE = true
      · have e : dirtyScan FO_TEMPORARY_FILE s Vpb (a :: rest) =
            dirtyScan FO_TEMPORARY_FILE s Vpb rest := by
          simp only [dirtyScan]; exact (if_neg h1).trans (if_pos h2)
        rw [e, ih]
        constructor
        · rintro ⟨v, hv, h⟩; exact ⟨v, List.mem_cons_of_mem _ hv, h⟩
        · rintro ⟨v, hv, h⟩
          rcases List.mem_cons.1 hv with rfl | hv
          · rw [h.2.1] at h2; exact absurd h2 (by decide)
          · exact ⟨v, hv, h⟩
      · by_cases h3 : (s.Vacbs a).Dirty = true
        · have e : dirtyScan FO_TEMPORARY_FILE s Vpb (a :: rest) = true := by
            simp only [dirtyScan]; exact (if_neg h1).trans ((if_neg h2).trans (if_pos h3))
          rw [e]
          simp only [true_iff]
          exact ⟨a, List.mem_cons_self _ _, not_not.1 h1, by simpa using h2, h3⟩
        · have e : dirtyScan FO_TEMPORARY_FILE s Vpb (a :: rest) =
              dirtyScan FO_TEMPORARY_FILE s Vpb rest := by
            simp only [dirtyScan]; exact (if_neg h1).trans ((if_neg h2).trans (if_neg h3))
          rw [e, ih]
          constructor
          · rintro ⟨v, hv, h⟩; exact ⟨v, List.mem_cons_of_mem _ hv, h⟩
          · rintro ⟨v, hv, h⟩
            rcases List.mem_cons.1 hv with rfl | hv
            · exact absurd h.2.2 h3
            · exact ⟨v, hv, h⟩

/-- C5, temporary-file exclusion: when every view on the dirty list has its
dirty flag set, `CcIsThereDirtyData (Vpb)` returns TRUE iff the dirty list
holds a view whose file object is on volume `Vpb` and does not have the
temporary flag; so it returns FALSE when all dirty views of the volume belong
to temporary files, and when all dirty views belong to other volumes. The
memory is unchanged. -/
theorem temporary_file_exclusion (FO_TEMPORARY_FILE : Nat) (s : CcState) (Vpb : Nat)
    (hdirty : ∀ v ∈ s.DirtyVacbList, (s.Vacbs v).Dirty = true) :
    ((CcIsThereDirtyData FO_TEMPORARY_FILE s Vpb).1 = true ↔
      ∃ v ∈ s.DirtyVacbList, (owningFile s v).Vpb = Vpb ∧
        BooleanFlagOn (owningFile s v).Flags FO_TEMPORARY_FILE = false) ∧
    ((∀ v ∈ s.DirtyVacbList, (owningFile s v).Vpb = Vpb →
        BooleanFlagOn (owningFile s v).Flags FO_TEMPORARY_FILE = true) →
      (CcIsThereDirtyData FO_TEMPORARY_FILE s Vpb).1 = false) ∧
    ((∀ v ∈ s.DirtyVacbList, (owningFile s v).Vpb ≠ Vpb) →
      (CcIsThereDirtyData FO_TEMPORARY_FILE s Vpb).1 = false) ∧
    (CcIsThereDirtyData FO_TEMPORARY_FILE s Vpb).2 = s := by
  have key : (CcIsThereDirtyData FO_TEMPORARY_FILE s Vpb).1 = true ↔
      ∃ v ∈ s.DirtyVacbList, (owningFile s v).Vpb = Vpb ∧
        BooleanFlagOn (owningFile s v).Flags FO_TEMPORARY_FILE = false := by
    simp only [CcIsThereDirtyData]
    rw [dirtyScan_iff]
    constructor
    · rintro ⟨v, hv, h1, h2, _⟩; exact ⟨v, hv, h1, h2⟩
    · rintro ⟨v, hv, h1, h2⟩; exact ⟨v, hv, h1, h2, hdirty v hv⟩
  refine ⟨key, ?_, ?_, rfl⟩
  · intro h
    rw [← Bool.not_eq_true, key]
    rintro ⟨v, hv, h1, h2⟩
    rw [h v hv h1] at h2
    exact absurd h2 (by decide)
  · intro h
    rw [← Bool.not_eq_true, key]
    rintro ⟨v, hv, h1, _⟩
    exact h v hv h1

/-- C5, witness: in `stateTwoFiles` with the temporary flag 0x8000, volume 1
has only a temporary file's dirty view (FALSE), volume 2 has a dirty view of
an ordinary file (TRUE), volume 3 has no view (FALSE). -/
theorem temporary_file_exclusion_witness :
    (CcIsThereDirtyData 32768 stateTwoFiles 1).1 = false ∧
    (CcIsThereDirtyData 32768 stateTwoFiles 2).1 = true ∧
    (CcIsThereDirtyData 32768 stateTwoFiles 3).1 = false ∧
    ((CcIsThereDirtyData 32768 stateTwoFiles 2).1 = true ↔
      ∃ v ∈ stateTwoFiles.DirtyVacbList, (owningFile stateTwoFiles v).Vpb = 2 ∧
        BooleanFlagOn (owningFile stateTwoFiles v).Flags 32768 = false) :=
  ⟨by decide, by decide, by decide,
   (temporary_file_exclusion 32768 stateTwoFiles 2 (by decide)).1⟩

/-! ## CcGetFileSizes -/

/-- C6, size query: for a file object whose section object pointers exist,
`CcGetFileSizes` returns FALSE iff the file has no shared cache map, and then
leaves the caller's record and the memory as they were; with a cache map it
returns TRUE with AllocationSize = SectionSize and FileSize = ValidDataLength
= FileSize, again with the memory unchanged. Calling it again on the result
gives the same result. -/
theorem get_file_sizes_absent (s : CcState) (FileObject : Nat) (FileSizes : CC_FILE_SIZES)
    (sop : SECTION_OBJECT_POINTERS)
    (hsop : (s.FileObjects FileObject).SectionObjectPointer = some sop) :
    ∃ r, CcGetFileSizes s FileObject FileSizes = some r ∧
      (r.1 = false ↔ sop.SharedCacheMap = none) ∧
      (sop.SharedCacheMap = none → r = (false, FileSizes, s)) ∧
      (∀ m, sop.SharedCacheMap = some m →
        r = (true, ⟨(s.CacheMaps m).SectionSize, (s.CacheMaps m).FileSize,
          (s.CacheMaps m).FileSize⟩, s)) ∧
      r.2.2 = s ∧
      CcGetFileSizes r.2.2 FileObject r.2.1 = some r := by
  rcases hm : sop.SharedCacheMap with _ | m
  · exact ⟨(false, FileSizes, s), by simp [CcGetFileSizes, hsop, hm], by simp, by simp,
      by simp, rfl, by simp [CcGetFileSizes, hsop, hm]⟩
  · exact ⟨(true, ⟨(s.CacheMaps m).SectionSize, (s.CacheMaps m).FileSize,
        (s.CacheMaps m).FileSize⟩, s), by simp only [CcGetFileSizes, hsop, hm], by simp, by simp,
      by intro m1 h; cases h; rfl, rfl, by simp only [CcGetFileSizes, hsop, hm]⟩

/-- C6, witness: file object 0 of `stateOneView` has cache map 0 with both
sizes 1 MiB; the query returns TRUE and the three sizes. -/
theorem get_file_sizes_absent_witness :
    ∃ r, CcGetFileSizes stateOneView 0 ⟨7, 8, 9⟩ = some r ∧
      (r.1 = false ↔ (⟨some 0⟩ : SECTION_OBJECT_POINTERS).SharedCacheMap = none) ∧
      r.2.1.AllocationSize = 1048576 ∧ r.2.1.FileSize = 1048576 ∧
      r.2.1.ValidDataLength = 1048576 := by
  obtain ⟨r, h1, h2, _, h4, _⟩ :=
    get_file_sizes_absent stateOneView 0 ⟨7, 8, 9⟩ ⟨some 0⟩ rfl
  refine ⟨r, h1, h2, ?_⟩
  rw [h4 0 rfl]
  exact ⟨rfl, rfl, rfl⟩

/-! ## Unbounded purge -/

theorem purgeEndOffset_zero (FileOffset : Option Int) :
    purgeEndOffset FileOffset 0 = MAXLONGLONG := by
  simp [purgeEndOffset]

/-- With a section size below MAXLONGLONG the unbounded scan never meets its
stop condition; if no view at or after the start is referenced and clean, it
passes over every view. -/
theorem unbounded_passes (Vacbs : VacbId → ROS_VACB) (SectionSize StartOffset : Int)
    (l : List VacbId) (hss : SectionSize < MAXLONGLONG)
    (hfree : ∀ v ∈ l, StartOffset ≤ (Vacbs v).FileOffset →
      ¬ ((Vacbs v).ReferenceCount ≠ 0 ∧ (Vacbs v).Dirty = false)) :
    ∀ w ∈ l, ScanPasses Vacbs SectionSize StartOffset MAXLONGLONG w := by
  intro w hw
  by_cases h : (Vacbs w).FileOffset < StartOffset
  · exact Or.inl h
  · exact Or.inr ⟨lt_of_le_of_lt (ViewEnd_le_SectionSize _ _) hss, hfree w hw (not_lt.1 h)⟩

theorem purge_all_pass (Vacbs : VacbId → ROS_VACB)
    (SectionSize StartOffset EndOffset : Int) (l : List VacbId)
    (hpre : ∀ w ∈ l, ScanPasses Vacbs SectionSize StartOffset EndOffset w) :
    purgeDetached Vacbs SectionSize StartOffset EndOffset l =
        l.filter (fun w => decide (StartOffset ≤ (Vacbs w).FileOffset)) ∧
    purgeKept Vacbs SectionSize StartOffset EndOffset l =
        l.filter (fun w => decide ((Vacbs w).FileOffset < StartOffset)) ∧
    purgeOk Vacbs SectionSize StartOffset EndOffset l = true := by
  have h := purge_append Vacbs SectionSize StartOffset EndOffset l [] hpre
  simpa [purgeDetached, purgeKept, purgeOk] using h

/-- C7, unbounded purge of an unpinned file: with a section size below
MAXLONGLONG and no referenced clean view at or after the start offset, the
call with length 0 returns TRUE, leaves in the view list exactly the views
that start before the start offset, in their order, and hands to the view
destroyer exactly the views that start at or after it (last unlinked first).
If every view starts at or after the start offset, as with start 0 and
non-negative offsets, the view list ends empty. -/
theorem unbounded_purge_unpinned (PAGE_SIZE : Nat) (s : CcState) (m : Nat)
    (StartOffset : Int) (u : Bool)
    (hss : (s.CacheMaps m).SectionSize < MAXLONGLONG)
    (hfree : ∀ v ∈ (s.CacheMaps m).CacheMapVacbList, StartOffset ≤ (s.Vacbs v).FileOffset →
      ¬ ((s.Vacbs v).ReferenceCount ≠ 0 ∧ (s.Vacbs v).Dirty = false)) :
    (CcPurgeCacheSection PAGE_SIZE s ⟨some m⟩ (some StartOffset) 0 u).1 = true ∧
    ((CcPurgeCacheSection PAGE_SIZE s ⟨some m⟩ (some StartOffset) 0 u).2.CacheMaps
        m).CacheMapVacbList =
      (s.CacheMaps m).CacheMapVacbList.filter
        (fun v => decide ((s.Vacbs v).FileOffset < StartOffset)) ∧
    (CcPurgeCacheSection PAGE_SIZE s ⟨some m⟩ (some StartOffset) 0 u).2.FreedVacbs =
      s.FreedVacbs ++ ((s.CacheMaps m).CacheMapVacbList.filter
        (fun v => decide (StartOffset ≤ (s.Vacbs v).FileOffset))).reverse ∧
    ((∀ v ∈ (s.CacheMaps m).CacheMapVacbList, StartOffset ≤ (s.Vacbs v).FileOffset) →
      ((CcPurgeCacheSection PAGE_SIZE s ⟨some m⟩ (some StartOffset) 0 u).2.CacheMaps
        m).CacheMapVacbList = []) := by
  have hall := purge_all_pass s.Vacbs (s.CacheMaps m).SectionSize StartOffset MAXLONGLONG
    (s.CacheMaps m).CacheMapVacbList (unbounded_passes _ _ _ _ hss hfree)
  rw [CcPurgeCacheSection_some PAGE_SIZE s ⟨some m⟩ (some StartOffset) 0 u m rfl]
  simp only [Function.update_same, keptOf, detachedOf, purgeEndOffset_zero, purgeStartOffset,
    hall.1, hall.2.1, hall.2.2, true_and]
  intro hge
  rw [List.filter_eq_nil_iff]
  intro v hv
  simpa using hge v hv

/-- C7, witness: two clean unreferenced views at offsets 0 and 256 KiB; the
unbounded purge from 0 returns TRUE, empties the view list and destroys both
views. -/
theorem unbounded_purge_unpinned_witness :
    (CcPurgeCacheSection 4096 stateTwoClean ⟨some 0⟩ (some 0) 0 false).1 = true ∧
    ((CcPurgeCacheSection 4096 stateTwoClean ⟨some 0⟩ (some 0) 0 false).2.CacheMaps
        0).CacheMapVacbList = [] ∧
    (CcPurgeCacheSection 4096 stateTwoClean ⟨some 0⟩ (some 0) 0 false).2.FreedVacbs = [1, 0] :=
  have h := unbounded_purge_unpinned 4096 stateTwoClean 0 0 false (by decide) (by decide)
  ⟨h.1, by decide, by decide⟩

/-! ## Abort -/

/-- A scan that returns FALSE has met, after views it passed over, a view in
range that is referenced and clean. -/
theorem purgeOk_false (Vacbs : VacbId → ROS_VACB)
    (SectionSize StartOffset EndOffset : Int) (l : List VacbId)
    (h : purgeOk Vacbs SectionSize StartOffset EndOffset l = false) :
    ∃ pre v post, l = pre ++ v :: post ∧
      (∀ w ∈ pre, ScanPasses Vacbs SectionSize StartOffset EndOffset w) ∧
      StartOffset ≤ (Vacbs v).FileOffset ∧ ViewEnd (Vacbs v) SectionSize < EndOffset ∧
      PinnedClean (Vacbs v) := by
  induction l with
  | nil => simp [purgeOk] at h
  | cons a rest ih =>
    by_cases h1 : (Vacbs a).FileOffset < StartOffset
    · rw [purgeOk, if_pos h1] at h
      obtain ⟨pre, v, post, hl, hpre, hv⟩ := ih h
      refine ⟨a :: pre, v, post, by rw [hl]; rfl, ?_, hv⟩
      intro w hw
      rcases List.mem_cons.1 hw with rfl | hw
      · exact Or.inl h1
      · exact hpre w hw
    · by_cases h2 : ViewEnd (Vacbs a) SectionSize ≥ EndOffset
      · rw [purgeOk, if_neg h1, if_pos h2] at h
        exact absurd h (by decide)
      · by_cases h3 : (Vacbs a).ReferenceCount ≠ 0 ∧ (Vacbs a).Dirty = false
        · exact ⟨[], a, rest, rfl, by simp, not_lt.1 h1, not_le.1 h2, h3⟩
        · rw [purgeOk, if_neg h1, if_neg h2, if_neg h3] at h
          obtain ⟨pre, v, post, hl, hpre, hv⟩ := ih h
          refine ⟨a :: pre, v, post, by rw [hl]; rfl, ?_, hv⟩
          intro w hw
          rcases List.mem_cons.1 hw with rfl | hw
          · exact Or.inr ⟨not_le.1 h2, h3⟩
          · exact hpre w hw

/-- The reading of a call whose scan passes over `pre` and then meets the
referenced clean view `v` in range. -/
theorem abort_reading (s : CcState) (m : Nat) (FileOffset : Option Int) (Length : Nat)
    (pre : List VacbId) (v : VacbId) (post : List VacbId)
    (hl : (s.CacheMaps m).CacheMapVacbList = pre ++ v :: post)
    (hpre : ∀ w ∈ pre, ScanPasses s.Vacbs (s.CacheMaps m).SectionSize
      (purgeStartOffset FileOffset) (purgeEndOffset FileOffset Length) w)
    (h1 : purgeStartOffset FileOffset ≤ (s.Vacbs v).FileOffset)
    (h2 : ViewEnd (s.Vacbs v) (s.CacheMaps m).SectionSize < purgeEndOffset FileOffset Length)
    (h3 : PinnedClean (s.Vacbs v)) :
    detachedOf s m FileOffset Length =
        pre.filter (fun w => decide (purgeStartOffset FileOffset ≤ (s.Vacbs w).FileOffset)) ∧
    keptOf s m FileOffset Length =
        pre.filter (fun w => decide ((s.Vacbs w).FileOffset < purgeStartOffset FileOffset)) ++
          v :: post ∧
    purgeOk s.Vacbs (s.CacheMaps m).SectionSize (purgeStartOffset FileOffset)
        (purgeEndOffset FileOffset Length) (s.CacheMaps m).CacheMapVacbList = false := by
  have ha := purge_append _ _ _ _ pre (v :: post) hpre
  have hb := purge_abort _ _ _ _ v post h1 h2 h3
  simp only [detachedOf, keptOf, hl]
  rw [ha.1, ha.2.1, ha.2.2, hb.1, hb.2.1, hb.2.2]
  simp

/-- C8, abort semantics on a cached file. The call returns FALSE iff the
scan, after views it passes over, meets a view in range that is referenced and
clean. Then, the view list linking each view once, that view and the views
after it stay in the view list in their order, each is on the recency list and
on the dirty list exactly if it was before, while the views unlinked earlier
in the call are gone from the view list and are handed to the view destroyer. If
every view before the referenced clean one was skipped, the view list, the
recency list, the dirty list, the dirty page counter and the trace of
destroyed views are all unchanged. -/
theorem purge_abort_semantics (PAGE_SIZE : Nat) (s : CcState) (m : Nat)
    (FileOffset : Option Int) (Length : Nat) (u : Bool) :
    ((CcPurgeCacheSection PAGE_SIZE s ⟨some m⟩ FileOffset Length u).1 = false ↔
      ∃ pre v post, (s.CacheMaps m).CacheMapVacbList = pre ++ v :: post ∧
        (∀ w ∈ pre, ScanPasses s.Vacbs (s.CacheMaps m).SectionSize
          (purgeStartOffset FileOffset) (purgeEndOffset FileOffset Length) w) ∧
        purgeStartOffset FileOffset ≤ (s.Vacbs v).FileOffset ∧
        ViewEnd (s.Vacbs v) (s.CacheMaps m).SectionSize < purgeEndOffset FileOffset Length ∧
        PinnedClean (s.Vacbs v)) ∧
    (∀ pre v post, (s.CacheMaps m).CacheMapVacbList.Nodup →
      (s.CacheMaps m).CacheMapVacbList = pre ++ v :: post →
      (∀ w ∈ pre, ScanPasses s.Vacbs (s.CacheMaps m).SectionSize
        (purgeStartOffset FileOffset) (purgeEndOffset FileOffset Length) w) →
      purgeStartOffset FileOffset ≤ (s.Vacbs v).FileOffset →
      ViewEnd (s.Vacbs v) (s.CacheMaps m).SectionSize < purgeEndOffset FileOffset Length →
      PinnedClean (s.Vacbs v) →
      ((CcPurgeCacheSection PAGE_SIZE s ⟨some m⟩ FileOffset Length u).2.CacheMaps
          m).CacheMapVacbList =
        pre.filter (fun w => decide ((s.Vacbs w).FileOffset < purgeStartOffset FileOffset)) ++
          v :: post ∧
      (CcPurgeCacheSection PAGE_SIZE s ⟨some m⟩ FileOffset Length u).2.FreedVacbs =
        s.FreedVacbs ++ (pre.filter
          (fun w => decide (purgeStartOffset FileOffset ≤ (s.Vacbs w).FileOffset))).reverse ∧
      (∀ w ∈ v :: post,
        (w ∈ (CcPurgeCacheSection PAGE_SIZE s ⟨some m⟩ FileOffset Length u).2.VacbLruList ↔
          w ∈ s.VacbLruList) ∧
        (w ∈ (CcPurgeCacheSection PAGE_SIZE s ⟨some m⟩ FileOffset Length u).2.DirtyVacbList ↔
          w ∈ s.DirtyVacbList)) ∧
      (∀ w ∈ pre, purgeStartOffset FileOffset ≤ (s.Vacbs w).FileOffset →
        w ∉ ((CcPurgeCacheSection PAGE_SIZE s ⟨some m⟩ FileOffset Length u).2.CacheMaps
          m).CacheMapVacbList)) ∧
    (∀ pre v post, (s.CacheMaps m).CacheMapVacbList = pre ++ v :: post →
      (∀ w ∈ pre, (s.Vacbs w).FileOffset < purgeStartOffset FileOffset) →
      purgeStartOffset FileOffset ≤ (s.Vacbs v).FileOffset →
      ViewEnd (s.Vacbs v) (s.CacheMaps m).SectionSize < purgeEndOffset FileOffset Length →
      PinnedClean (s.Vacbs v) →
      (CcPurgeCacheSection PAGE_SIZE s ⟨some m⟩ FileOffset Length u).1 = false ∧
      ((CcPurgeCacheSection PAGE_SIZE s ⟨some m⟩ FileOffset Length u).2.CacheMaps
          m).CacheMapVacbList = (s.CacheMaps m).CacheMapVacbList ∧
      (CcPurgeCacheSection PAGE_SIZE s ⟨some m⟩ FileOffset Length u).2.VacbLruList =
        s.VacbLruList ∧
      (CcPurgeCacheSection PAGE_SIZE s ⟨some m⟩ FileOffset Length u).2.DirtyVacbList =
        s.DirtyVacbList ∧
      (CcPurgeCacheSection PAGE_SIZE s ⟨some m⟩ FileOffset Length u).2.DirtyPageCount =
        s.DirtyPageCount ∧
      (CcPurgeCacheSection PAGE_SIZE s ⟨some m⟩ FileOffset Length u).2.FreedVacbs =
        s.FreedVacbs) := by
  rw [CcPurgeCacheSection_some PAGE_SIZE s ⟨some m⟩ FileOffset Length u m rfl]
  simp only [Function.update_same]
  refine ⟨⟨fun h => purgeOk_false _ _ _ _ _ h, ?_⟩, ?_, ?_⟩
  · rintro ⟨pre, v, post, hl, hpre, h1, h2, h3⟩
    exact (abort_reading s m FileOffset Length pre v post hl hpre h1 h2 h3).2.2
  · intro pre v post hnodup hl hpre h1 h2 h3
    have hr := abort_reading s m FileOffset Length pre v post hl hpre h1 h2 h3
    have hnd : (pre ++ v :: post).Nodup := hl ▸ hnodup
    have hdisj : ∀ w ∈ pre, w ∉ v :: post := fun w hw hw1 =>
      (List.nodup_append.1 hnd).2.2 hw hw1
    rw [hr.1, hr.2.1]
    refine ⟨rfl, rfl, ?_, ?_⟩
    · intro w hw
      have hwd : w ∉ pre.filter
          (fun w => decide (purgeStartOffset FileOffset ≤ (s.Vacbs w).FileOffset)) :=
        fun hf => hdisj w (List.mem_filter.1 hf).1 hw
      constructor
      · exact ⟨fun h => List.diff_subset _ _ h, fun h => List.mem_diff_of_mem h hwd⟩
      · exact ⟨fun h => List.diff_subset _ _ h,
          fun h => List.mem_diff_of_mem h (fun hf => hwd (List.mem_filter.1 hf).1)⟩
    · intro w hw hge hmem
      rcases List.mem_append.1 hmem with hmem | hmem
      · have := (List.mem_filter.1 hmem).2
        simp only [decide_eq_true_eq] at this
        omega
      · exact hdisj w hw hmem
  · intro pre v post hl hpre h1 h2 h3
    have hr := abort_reading s m FileOffset Length pre v post hl
      (fun w hw => Or.inl (hpre w hw)) h1 h2 h3
    have hnil : pre.filter
        (fun w => decide (purgeStartOffset FileOffset ≤ (s.Vacbs w).FileOffset)) = [] := by
      rw [List.filter_eq_nil_iff]
      intro w hw
      have := hpre w hw
      simp only [decide_eq_true_eq]
      omega
    have hself : pre.filter
        (fun w => decide ((s.Vacbs w).FileOffset < purgeStartOffset FileOffset)) = pre := by
      rw [List.filter_eq_self]
      intro w hw
      simpa using hpre w hw
    rw [hr.1, hr.2.1, hr.2.2, hnil, hself, hl]
    simp [countAfter]

/-- C8, witness: views at 0 and 256 KiB, the one at 0 referenced once and
clean; the unbounded purge from 0 returns FALSE and changes nothing. -/
theorem purge_abort_semantics_witness :
    (CcPurgeCacheSection 4096 statePinnedFirst ⟨some 0⟩ (some 0) 0 false).1 = false ∧
    ((CcPurgeCacheSection 4096 statePinnedFirst ⟨some 0⟩ (some 0) 0 false).2.CacheMaps
        0).CacheMapVacbList = (statePinnedFirst.CacheMaps 0).CacheMapVacbList ∧
    (CcPurgeCacheSection 4096 statePinnedFirst ⟨some 0⟩ (some 0) 0 false).2.VacbLruList =
      statePinnedFirst.VacbLruList ∧
    (CcPurgeCacheSection 4096 statePinnedFirst ⟨some 0⟩ (some 0) 0 false).2.DirtyVacbList =
      statePinnedFirst.DirtyVacbList ∧
    (CcPurgeCacheSection 4096 statePinnedFirst ⟨some 0⟩ (some 0) 0 false).2.DirtyPageCount =
      statePinnedFirst.DirtyPageCount ∧
    (CcPurgeCacheSection 4096 statePinnedFirst ⟨some 0⟩ (some 0) 0 false).2.FreedVacbs =
      statePinnedFirst.FreedVacbs :=
  (purge_abort_semantics 4096 statePinnedFirst 0 (some 0) 0 false).2.2
    [] 0 [1] (by decide) (by simp) (by decide) (by decide) (by decide)

/-! ## CcSetFileSizes -/

/-- The value of `CcSetFileSizes` on a cached file. -/
theorem CcSetFileSizes_some (PAGE_SIZE : Nat) (s : CcState) (FileObject : Nat)
    (FileSizes : CC_FILE_SIZES) (sop : SECTION_OBJECT_POINTERS) (m : Nat)
    (hsop : (s.FileObjects FileObject).SectionObjectPointer = some sop)
    (hm : sop.SharedCacheMap = some m) :
    CcSetFileSizes PAGE_SIZE s FileObject FileSizes =
      some (withSizes
        (if FileSizes.AllocationSize < (s.CacheMaps m).SectionSize then
          (CcPurgeCacheSection PAGE_SIZE s sop (some FileSizes.AllocationSize) 0 false).2
        else s) m FileSizes.AllocationSize FileSizes.FileSize) := by
  simp only [CcSetFileSizes, hsop, hm, withSizes]

theorem sameLinks_withSizes (s : CcState) (m : Nat) (SectionSize FileSize : Int) :
    SameLinks s (withSizes s m SectionSize FileSize) :=
  sameLinks_setSizes s m SectionSize FileSize

/-- C9, the new sizes are always applied: on a cached file, after
`CcSetFileSizes` the section size is the new allocation size and the file size
is the new file size, whether the shrinking purge ran or not and whatever it
returned; on a file without a shared cache map the memory is unchanged. -/
theorem set_file_sizes_applies (PAGE_SIZE : Nat) (s : CcState) (FileObject : Nat)
    (FileSizes : CC_FILE_SIZES) (sop : SECTION_OBJECT_POINTERS)
    (hsop : (s.FileObjects FileObject).SectionObjectPointer = some sop) :
    (∀ m, sop.SharedCacheMap = some m →
      ∃ t, CcSetFileSizes PAGE_SIZE s FileObject FileSizes = some t ∧
        (t.CacheMaps m).SectionSize = FileSizes.AllocationSize ∧
        (t.CacheMaps m).FileSize = FileSizes.FileSize) ∧
    (sop.SharedCacheMap = none →
      CcSetFileSizes PAGE_SIZE s FileObject FileSizes = some s) := by
  constructor
  · intro m hm
    exact ⟨_, CcSetFileSizes_some PAGE_SIZE s FileObject FileSizes sop m hsop hm,
      by simp [withSizes], by simp [withSizes]⟩
  · intro hm
    simp [CcSetFileSizes, hsop, hm]

/-- C9, witness: in `statePinnedFirst` the shrink to allocation size 0 runs a
purge that fails on the referenced clean view at offset 0; the sizes are set
to 0 and 0 all the same, and the view list still holds both views. -/
theorem set_file_sizes_applies_witness :
    (CcPurgeCacheSection 4096 statePinnedFirst ⟨some 0⟩ (some 0) 0 false).1 = false ∧
    ∃ t, CcSetFileSizes 4096 statePinnedFirst 0 ⟨0, 0, 0⟩ = some t ∧
      (t.CacheMaps 0).SectionSize = 0 ∧ (t.CacheMaps 0).FileSize = 0 :=
  ⟨by decide,
   (set_file_sizes_applies 4096 statePinnedFirst 0 ⟨0, 0, 0⟩ ⟨some 0⟩ rfl).1 0 rfl⟩

/-- C10, shrink discards the views out of bounds: on a cached file with
section size below MAXLONGLONG, a new allocation size A below the section
size, no referenced clean view at or after A, recency and dirty lists without
duplicates and only flagged views of the file on the dirty list, after
`CcSetFileSizes` every view left in the view list starts before A, no view of
the file that starts at or after A is on the recency list or the dirty list,
every view that starts before A is still in the view list, and the section
size is A. -/
theorem shrink_discards_views (PAGE_SIZE : Nat) (s : CcState) (FileObject : Nat)
    (FileSizes : CC_FILE_SIZES) (sop : SECTION_OBJECT_POINTERS) (m : Nat)
    (hsop : (s.FileObjects FileObject).SectionObjectPointer = some sop)
    (hm : sop.SharedCacheMap = some m)
    (hss : (s.CacheMaps m).SectionSize < MAXLONGLONG)
    (hlt : FileSizes.AllocationSize < (s.CacheMaps m).SectionSize)
    (hfree : ∀ v ∈ (s.CacheMaps m).CacheMapVacbList,
      FileSizes.AllocationSize ≤ (s.Vacbs v).FileOffset →
      ¬ ((s.Vacbs v).ReferenceCount ≠ 0 ∧ (s.Vacbs v).Dirty = false))
    (hlru : s.VacbLruList.Nodup) (hdirty : s.DirtyVacbList.Nodup)
    (hflag : ∀ v ∈ (s.CacheMaps m).CacheMapVacbList, v ∈ s.DirtyVacbList →
      (s.Vacbs v).Dirty = true) :
    ∃ t, CcSetFileSizes PAGE_SIZE s FileObject FileSizes = some t ∧
      (∀ v ∈ (t.CacheMaps m).CacheMapVacbList,
        (s.Vacbs v).FileOffset < FileSizes.AllocationSize) ∧
      (∀ v ∈ (s.CacheMaps m).CacheMapVacbList,
        FileSizes.AllocationSize ≤ (s.Vacbs v).FileOffset →
        v ∉ (t.CacheMaps m).CacheMapVacbList ∧ v ∉ t.VacbLruList ∧ v ∉ t.DirtyVacbList) ∧
      (∀ v ∈ (s.CacheMaps m).CacheMapVacbList,
        (s.Vacbs v).FileOffset < FileSizes.AllocationSize →
        v ∈ (t.CacheMaps m).CacheMapVacbList) ∧
      (t.CacheMaps m).SectionSize = FileSizes.AllocationSize := by
  have ht := CcSetFileSizes_some PAGE_SIZE s FileObject FileSizes sop m hsop hm
  rw [if_pos hlt] at ht
  generalize ht1 : withSizes
    (CcPurgeCacheSection PAGE_SIZE s sop (some FileSizes.AllocationSize) 0 false).2 m
    FileSizes.AllocationSize FileSizes.FileSize = t at ht
  have hsize : (t.CacheMaps m).SectionSize = FileSizes.AllocationSize := by
    rw [← ht1]; simp [withSizes]
  have hlinks : SameLinks
      (CcPurgeCacheSection PAGE_SIZE s sop (some FileSizes.AllocationSize) 0 false).2 t := by
    rw [← ht1]; exact sameLinks_withSizes _ m _ _
  have hlrueq : t.VacbLruList =
      (CcPurgeCacheSection PAGE_SIZE s sop (some FileSizes.AllocationSize) 0 false).2.VacbLruList := by
    rw [← ht1]; rfl
  have hall := purge_all_pass s.Vacbs (s.CacheMaps m).SectionSize FileSizes.AllocationSize
    MAXLONGLONG (s.CacheMaps m).CacheMapVacbList (unbounded_passes _ _ _ _ hss hfree)
  rw [CcPurgeCacheSection_some PAGE_SIZE s sop (some FileSizes.AllocationSize) 0 false m hm]
    at hlinks hlrueq
  have hlist : (t.CacheMaps m).CacheMapVacbList =
      (s.CacheMaps m).CacheMapVacbList.filter
        (fun v => decide ((s.Vacbs v).FileOffset < FileSizes.AllocationSize)) := by
    rw [hlinks.2.2 m]
    simp only [Function.update_same, keptOf, purgeEndOffset_zero, purgeStartOffset, hall.2.1]
  have hdet : detachedOf s m (some FileSizes.AllocationSize) 0 =
      (s.CacheMaps m).CacheMapVacbList.filter
        (fun v => decide (FileSizes.AllocationSize ≤ (s.Vacbs v).FileOffset)) := by
    simp only [detachedOf, purgeEndOffset_zero, purgeStartOffset, hall.1]
  refine ⟨t, ht, ?_, ?_, ?_, hsize⟩
  · intro v hv
    rw [hlist] at hv
    simpa using (List.mem_filter.1 hv).2
  · intro v hv hge
    have hvd : v ∈ detachedOf s m (some FileSizes.AllocationSize) 0 := by
      rw [hdet]; exact List.mem_filter.2 ⟨hv, by simpa using hge⟩
    refine ⟨?_, ?_, ?_⟩
    · rw [hlist]
      intro hf
      have := (List.mem_filter.1 hf).2
      simp only [decide_eq_true_eq] at this
      omega
    · rw [hlrueq]
      simp only
      rw [hlru.mem_diff_iff]
      exact fun hc => hc.2 hvd
    · rw [hlinks.2.1]
      simp only
      rw [hdirty.mem_diff_iff]
      by_cases hd : (s.Vacbs v).Dirty = true
      · exact fun hc => hc.2 (List.mem_filter.2 ⟨hvd, by simpa using hd⟩)
      · exact fun hc => hd (hflag v hv hc.1)
  · intro v hv hlt1
    rw [hlist]
    exact List.mem_filter.2 ⟨hv, by simpa using hlt1⟩

/-- C10, witness: section size 512 KiB, one clean unreferenced view at
256 KiB, new sizes 128 KiB and 128 KiB; afterwards the view list, the recency
list and the dirty list are empty and the section size is 128 KiB. -/
theorem shrink_discards_views_witness :
    ∃ t, CcSetFileSizes 4096 stateShrink 0 ⟨131072, 131072, 131072⟩ = some t ∧
      (∀ v ∈ (t.CacheMaps 0).CacheMapVacbList,
        (stateShrink.Vacbs v).FileOffset < (131072 : Int)) ∧
      (0 ∉ (t.CacheMaps 0).CacheMapVacbList ∧ 0 ∉ t.VacbLruList ∧ 0 ∉ t.DirtyVacbList) ∧
      (t.CacheMaps 0).SectionSize = 131072 := by
  obtain ⟨t, h1, h2, h3, _, h5⟩ :=
    shrink_discards_views 4096 stateShrink 0 ⟨131072, 131072, 131072⟩ ⟨some 0⟩ 0 rfl rfl
      (by decide) (by decide) (by decide) (by decide) (by decide) (by decide)
  exact ⟨t, h1, h2, h3 0 (by decide) (by decide), h5⟩

/-! ## The truncate step of CcUninitializeCacheMap -/

theorem withSizes_self (s : CcState) (m : Nat) :
    withSizes s m (s.CacheMaps m).SectionSize (s.CacheMaps m).FileSize = s := by
  cases s
  simp [withSizes, Function.update_eq_self]

/-- The truncate step on a cached file with a truncate size: the file size
becomes the smaller of the two sizes, then the unbounded purge runs. -/
theorem uninitializeTruncate_some (PAGE_SIZE : Nat) (s : CcState) (FileObject : Nat)
    (sop : SECTION_OBJECT_POINTERS) (m : Nat) (QuadPart : Int)
    (hsop : (s.FileObjects FileObject).SectionObjectPointer = some sop)
    (hm : sop.SharedCacheMap = some m) :
    uninitializeTruncate PAGE_SIZE s FileObject (some QuadPart) =
      (CcPurgeCacheSection PAGE_SIZE
        (withSizes s m (s.CacheMaps m).SectionSize (min (s.CacheMaps m).FileSize QuadPart))
        sop (some QuadPart) 0 false).2 := by
  by_cases hgt : (s.CacheMaps m).FileSize > QuadPart
  · have hmin : min (s.CacheMaps m).FileSize QuadPart = QuadPart := min_eq_right (le_of_lt hgt)
    simp only [uninitializeTruncate, hsop, hm, hgt, if_true, hmin, withSizes]
  · have hmin : min (s.CacheMaps m).FileSize QuadPart = (s.CacheMaps m).FileSize :=
      min_eq_left (not_lt.1 hgt)
    rw [hmin, withSizes_self]
    simp only [uninitializeTruncate, hsop, hm, hgt, if_false]

/-- The window end of a view stays below MAXLONGLONG when the section size is
below it, or when the offset of the view is a multiple of the granularity. -/
theorem ViewEnd_lt_MAXLONGLONG (Vacb : ROS_VACB) (SectionSize : Int)
    (h : SectionSize < MAXLONGLONG ∨
      Vacb.FileOffset % (VACB_MAPPING_GRANULARITY : Int) = 0) :
    ViewEnd Vacb SectionSize < MAXLONGLONG := by
  rcases h with h | h
  · exact lt_of_le_of_lt (ViewEnd_le_SectionSize _ _) h
  · unfold ViewEnd
    apply lt_of_le_of_lt (min_le_left _ _)
    simp only [VACB_MAPPING_GRANULARITY] at h
    simp only [wrapLONGLONG, MAXLONGLONG, VACB_MAPPING_GRANULARITY]
    omega

theorem unbounded_passes_aligned (Vacbs : VacbId → ROS_VACB) (SectionSize StartOffset : Int)
    (l : List VacbId)
    (hsafe : SectionSize < MAXLONGLONG ∨
      ∀ v ∈ l, (Vacbs v).FileOffset % (VACB_MAPPING_GRANULARITY : Int) = 0)
    (hfree : ∀ v ∈ l, StartOffset ≤ (Vacbs v).FileOffset →
      ¬ ((Vacbs v).ReferenceCount ≠ 0 ∧ (Vacbs v).Dirty = false)) :
    ∀ w ∈ l, ScanPasses Vacbs SectionSize StartOffset MAXLONGLONG w := by
  intro w hw
  by_cases h : (Vacbs w).FileOffset < StartOffset
  · exact Or.inl h
  · refine Or.inr ⟨ViewEnd_lt_MAXLONGLONG _ _ ?_, hfree w hw (not_lt.1 h)⟩
    rcases hsafe with hs | hs
    · exact Or.inl hs
    · exact Or.inr (hs w hw)

/-- C11, teardown truncation: on a cached file with a truncate size T, after
the truncate step of `CcUninitializeCacheMap` the file size is the smaller of
the old file size and T and the section size is unchanged. If moreover the
section size is below MAXLONGLONG or the view offsets are multiples of the
granularity, and no view that starts at or after T is referenced and clean,
then the view list holds exactly the views that start before T and the views
that start at or after T have been handed to the view destroyer; it ends
empty when every view starts at or after T. Without a truncate size the step
changes nothing. -/
theorem teardown_truncation (PAGE_SIZE : Nat) (s : CcState) (FileObject : Nat)
    (sop : SECTION_OBJECT_POINTERS) (m : Nat) (T : Int)
    (hsop : (s.FileObjects FileObject).SectionObjectPointer = some sop)
    (hm : sop.SharedCacheMap = some m) :
    ((uninitializeTruncate PAGE_SIZE s FileObject (some T)).CacheMaps m).FileSize =
        min (s.CacheMaps m).FileSize T ∧
    ((uninitializeTruncate PAGE_SIZE s FileObject (some T)).CacheMaps m).SectionSize =
        (s.CacheMaps m).SectionSize ∧
    (((s.CacheMaps m).SectionSize < MAXLONGLONG ∨
        ∀ v ∈ (s.CacheMaps m).CacheMapVacbList,
          (s.Vacbs v).FileOffset % (VACB_MAPPING_GRANULARITY : Int) = 0) →
      (∀ v ∈ (s.CacheMaps m).CacheMapVacbList, T ≤ (s.Vacbs v).FileOffset →
        ¬ ((s.Vacbs v).ReferenceCount ≠ 0 ∧ (s.Vacbs v).Dirty = false)) →
      ((uninitializeTruncate PAGE_SIZE s FileObject (some T)).CacheMaps m).CacheMapVacbList =
          (s.CacheMaps m).CacheMapVacbList.filter
            (fun v => decide ((s.Vacbs v).FileOffset < T)) ∧
      (uninitializeTruncate PAGE_SIZE s FileObject (some T)).FreedVacbs =
          s.FreedVacbs ++ ((s.CacheMaps m).CacheMapVacbList.filter
            (fun v => decide (T ≤ (s.Vacbs v).FileOffset))).reverse ∧
      ((∀ v ∈ (s.CacheMaps m).CacheMapVacbList, T ≤ (s.Vacbs v).FileOffset) →
        ((uninitializeTruncate PAGE_SIZE s FileObject (some T)).CacheMaps
          m).CacheMapVacbList = [])) ∧
    uninitializeTruncate PAGE_SIZE s FileObject none = s := by
  rw [uninitializeTruncate_some PAGE_SIZE s FileObject sop m T hsop hm,
    CcPurgeCacheSection_some PAGE_SIZE _ sop (some T) 0 false m hm]
  simp only [withSizes, Function.update_same, keptOf, detachedOf, purgeEndOffset_zero,
    purgeStartOffset, true_and]
  refine ⟨?_, by simp [uninitializeTruncate]⟩
  intro hsafe hfree
  have hall := purge_all_pass s.Vacbs (s.CacheMaps m).SectionSize T MAXLONGLONG
    (s.CacheMaps m).CacheMapVacbList (unbounded_passes_aligned _ _ _ _ hsafe hfree)
  rw [hall.1, hall.2.1]
  refine ⟨rfl, rfl, ?_⟩
  intro hge
  rw [List.filter_eq_nil_iff]
  intro v hv
  simpa using hge v hv

/-- C11, witness: file size 4096, views at 0 and 256 KiB, truncate size 0;
the file size becomes 0 and the view list ends empty, both views destroyed. -/
theorem teardown_truncation_witness :
    ((uninitializeTruncate 4096 stateSmallFile 0 (some 0)).CacheMaps 0).FileSize = 0 ∧
    ((uninitializeTruncate 4096 stateSmallFile 0 (some 0)).CacheMaps 0).SectionSize = 524288 ∧
    ((uninitializeTruncate 4096 stateSmallFile 0 (some 0)).CacheMaps 0).CacheMapVacbList = [] ∧
    (uninitializeTruncate 4096 stateSmallFile 0 (some 0)).FreedVacbs = [1, 0] :=
  have h := teardown_truncation 4096 stateSmallFile 0 ⟨some 0⟩ 0 0 rfl rfl
  have h3 := h.2.2.1 (Or.inl (by decide)) (by decide)
  ⟨h.1, h.2.1, h3.2.2 (by decide), h3.2.1⟩

/-! ## Result and completion event of CcUninitializeCacheMap -/

theorem CcPurgeCacheSection_events (PAGE_SIZE : Nat) (s : CcState)
    (sop : SECTION_OBJECT_POINTERS) (FileOffset : Option Int) (Length : Nat) (u : Bool) :
    (CcPurgeCacheSection PAGE_SIZE s sop FileOffset Length u).2.SignalledEvents =
      s.SignalledEvents := by
  rcases hm : sop.SharedCacheMap with _ | m
  · rw [CcPurgeCacheSection_none PAGE_SIZE s sop FileOffset Length u hm]
  · rw [CcPurgeCacheSection_some PAGE_SIZE s sop FileOffset Length u m hm]

theorem uninitializeTruncate_events (PAGE_SIZE : Nat) (s : CcState) (FileObject : Nat)
    (TruncateSize : Option Int) :
    (uninitializeTruncate PAGE_SIZE s FileObject TruncateSize).SignalledEvents =
      s.SignalledEvents := by
  rcases TruncateSize with _ | QuadPart
  · simp [uninitializeTruncate]
  · rcases hsop : (s.FileObjects FileObject).SectionObjectPointer with _ | sop
    · simp [uninitializeTruncate, hsop]
    · rcases hm : sop.SharedCacheMap with _ | m
      · simp [uninitializeTruncate, hsop, hm]
      · rw [uninitializeTruncate_some PAGE_SIZE s FileObject sop m QuadPart hsop hm,
          CcPurgeCacheSection_events]
        rfl

/-- C12, result and completion event of teardown: the BOOLEAN returned by
`CcUninitializeCacheMap` is NT_SUCCESS of the status returned by the external
release routine, called on the memory left by the truncate step; with a
release routine that returns the status `Status` whatever the memory, the
result is NT_SUCCESS (Status), whatever the purge did. The truncate step sets
no event. A supplied completion event is set once, after the release: the
trace of set events is the trace after the release followed by that event;
without a completion event the memory is the one the release left. -/
theorem teardown_result_and_signal (PAGE_SIZE : Nat)
    (CcRosReleaseFileCache : CcState → Nat → Int × CcState) (s : CcState)
    (FileObject : Nat) (TruncateSize : Option Int) (UninitializeCompleteEvent : Option Nat) :
    (CcUninitializeCacheMap PAGE_SIZE CcRosReleaseFileCache s FileObject TruncateSize
        UninitializeCompleteEvent).1 =
      NT_SUCCESS (CcRosReleaseFileCache
        (uninitializeTruncate PAGE_SIZE s FileObject TruncateSize) FileObject).1 ∧
    (∀ (Status : Int) (g : CcState → Nat → CcState),
      (CcUninitializeCacheMap PAGE_SIZE (fun t f => (Status, g t f)) s FileObject TruncateSize
        UninitializeCompleteEvent).1 = NT_SUCCESS Status) ∧
    (uninitializeTruncate PAGE_SIZE s FileObject TruncateSize).SignalledEvents =
      s.SignalledEvents ∧
    (∀ Event, UninitializeCompleteEvent = some Event →
      (CcUninitializeCacheMap PAGE_SIZE CcRosReleaseFileCache s FileObject TruncateSize
          UninitializeCompleteEvent).2.SignalledEvents =
        (CcRosReleaseFileCache (uninitializeTruncate PAGE_SIZE s FileObject TruncateSize)
          FileObject).2.SignalledEvents ++ [Event]) ∧
    (UninitializeCompleteEvent = none →
      (CcUninitializeCacheMap PAGE_SIZE CcRosReleaseFileCache s FileObject TruncateSize
          UninitializeCompleteEvent).2 =
        (CcRosReleaseFileCache (uninitializeTruncate PAGE_SIZE s FileObject TruncateSize)
          FileObject).2) := by
  refine ⟨rfl, fun _ _ => rfl, uninitializeTruncate_events _ _ _ _, ?_, ?_⟩
  · rintro Event rfl
    rfl
  · rintro rfl
    rfl

/-- C12, examples: in `statePinnedFirst` the purge of the truncate step fails
on the referenced clean view; teardown still returns TRUE when the release
succeeds and FALSE when it fails with 0xC0000001, and in both cases the
supplied event 7 is set exactly once; without an event none is set. -/
theorem teardown_result_and_signal_examples :
    (CcPurgeCacheSection 4096 statePinnedFirst ⟨some 0⟩ (some 0) 0 false).1 = false ∧
    (CcUninitializeCacheMap 4096 (releaseWith 0) statePinnedFirst 0 (some 0) (some 7)).1 = true ∧
    (CcUninitializeCacheMap 4096 (releaseWith 0) statePinnedFirst 0 (some 0)
      (some 7)).2.SignalledEvents = [7] ∧
    (CcUninitializeCacheMap 4096 (releaseWith (-1073741823)) statePinnedFirst 0 (some 0)
      (some 7)).1 = false ∧
    (CcUninitializeCacheMap 4096 (releaseWith (-1073741823)) statePinnedFirst 0 (some 0)
      (some 7)).2.SignalledEvents = [7] ∧
    (CcUninitializeCacheMap 4096 (releaseWith 0) statePinnedFirst 0 (some 0)
      none).2.SignalledEvents = [] :=
  ⟨by decide, by decide, by decide, by decide, by decide, by decide⟩

/-! ## Deferred destruction -/

/-- C13, deferred destruction is exact. With a view list, a recency list and a
dirty list that link each view once, and the views of the file on the dirty
list all flagged dirty: the views handed to the view destroyer by one call of
`CcPurgeCacheSection` on a cached file are exactly the views that left the
view list in that call, each once (the old view list is a permutation of the
new one followed by them); none of them is in the view list, the recency list
or the dirty list when the destruction loop starts; nothing else is appended
to the trace of destroyed views. On a file without cache map nothing is
destroyed. -/
theorem deferred_destruction_exact (PAGE_SIZE : Nat) (s : CcState) (m : Nat)
    (FileOffset : Option Int) (Length : Nat) (u : Bool)
    (hnodup : (s.CacheMaps m).CacheMapVacbList.Nodup)
    (hlru : s.VacbLruList.Nodup) (hdirty : s.DirtyVacbList.Nodup)
    (hflag : ∀ v ∈ (s.CacheMaps m).CacheMapVacbList, v ∈ s.DirtyVacbList →
      (s.Vacbs v).Dirty = true) :
    (∃ D, (CcPurgeCacheSection PAGE_SIZE s ⟨some m⟩ FileOffset Length u).2.FreedVacbs =
        s.FreedVacbs ++ D ∧
      D.Nodup ∧
      (∀ v, v ∈ D ↔ (v ∈ (s.CacheMaps m).CacheMapVacbList ∧
        v ∉ ((CcPurgeCacheSection PAGE_SIZE s ⟨some m⟩ FileOffset Length u).2.CacheMaps
          m).CacheMapVacbList)) ∧
      (s.CacheMaps m).CacheMapVacbList.Perm
        (((CcPurgeCacheSection PAGE_SIZE s ⟨some m⟩ FileOffset Length u).2.CacheMaps
          m).CacheMapVacbList ++ D) ∧
      (∀ v ∈ D,
        v ∉ ((CcPurgeCacheSection PAGE_SIZE s ⟨some m⟩ FileOffset Length u).2.CacheMaps
          m).CacheMapVacbList ∧
        v ∉ (CcPurgeCacheSection PAGE_SIZE s ⟨some m⟩ FileOffset Length u).2.VacbLruList ∧
        v ∉ (CcPurgeCacheSection PAGE_SIZE s ⟨some m⟩ FileOffset Length u).2.DirtyVacbList)) ∧
    (CcPurgeCacheSection PAGE_SIZE s ⟨none⟩ FileOffset Length u).2.FreedVacbs =
      s.FreedVacbs := by
  refine ⟨?_, by rw [CcPurgeCacheSection_none PAGE_SIZE s ⟨none⟩ FileOffset Length u rfl]⟩
  rw [CcPurgeCacheSection_some PAGE_SIZE s ⟨some m⟩ FileOffset Length u m rfl]
  have hsub : (detachedOf s m FileOffset Length).Sublist (s.CacheMaps m).CacheMapVacbList :=
    purgeDetached_sublist _ _ _ _ _
  have hkept : keptOf s m FileOffset Length =
      (s.CacheMaps m).CacheMapVacbList.diff (detachedOf s m FileOffset Length) :=
    purgeKept_eq _ _ _ _ _
  have hiff : ∀ v, v ∈ (detachedOf s m FileOffset Length).reverse ↔
      (v ∈ (s.CacheMaps m).CacheMapVacbList ∧ v ∉ keptOf s m FileOffset Length) := by
    intro v
    rw [List.mem_reverse, hkept, hnodup.mem_diff_iff]
    constructor
    · exact fun h => ⟨hsub.subset h, fun hc => hc.2 h⟩
    · rintro ⟨h1, h2⟩
      by_contra hc
      exact h2 ⟨h1, hc⟩
  refine ⟨(detachedOf s m FileOffset Length).reverse, rfl,
    List.nodup_reverse.2 (hnodup.sublist hsub), ?_, ?_, ?_⟩
  · simpa only [Function.update_same] using hiff
  · simp only [Function.update_same, hkept]
    have hp : ((detachedOf s m FileOffset Length) ++
        (s.CacheMaps m).CacheMapVacbList.diff (detachedOf s m FileOffset Length)).Perm
        (s.CacheMaps m).CacheMapVacbList :=
      List.subperm_append_diff_self_of_count_le (fun x _ => hsub.count_le x)
    exact (hp.symm.trans List.perm_append_comm).trans
      (List.Perm.append_left _ (List.reverse_perm _).symm)
  · intro v hv
    have hvd : v ∈ detachedOf s m FileOffset Length := List.mem_reverse.1 hv
    simp only [Function.update_same]
    refine ⟨((hiff v).1 hv).2, ?_, ?_⟩
    · rw [hlru.mem_diff_iff]
      exact fun hc => hc.2 hvd
    · rw [hdirty.mem_diff_iff]
      by_cases hd : (s.Vacbs v).Dirty = true
      · exact fun hc => hc.2 (List.mem_filter.2 ⟨hvd, by simpa using hd⟩)
      · exact fun hc => hd (hflag v (hsub.subset hvd) hc.1)

/-- C13, witness: in `stateDirtyView` the unbounded purge hands the views 1
and 0 to the destroyer, each once, and leaves all three lists empty. -/
theorem deferred_destruction_exact_witness :
    (CcPurgeCacheSection 4096 stateDirtyView ⟨some 0⟩ (some 0) 0 false).2.FreedVacbs = [1, 0] ∧
    ((CcPurgeCacheSection 4096 stateDirtyView ⟨some 0⟩ (some 0) 0 false).2.CacheMaps
      0).CacheMapVacbList = [] ∧
    (CcPurgeCacheSection 4096 stateDirtyView ⟨some 0⟩ (some 0) 0 false).2.VacbLruList = [] ∧
    (CcPurgeCacheSection 4096 stateDirtyView ⟨some 0⟩ (some 0) 0 false).2.DirtyVacbList = [] ∧
    ∃ D, (CcPurgeCacheSection 4096 stateDirtyView ⟨some 0⟩ (some 0) 0 false).2.FreedVacbs =
        stateDirtyView.FreedVacbs ++ D ∧ D.Nodup :=
  have h := (deferred_destruction_exact 4096 stateDirtyView 0 (some 0) 0 false (by decide)
    (by decide) (by decide) (by decide)).1
  ⟨by decide, by decide, by decide, by decide,
   h.elim (fun D hD => ⟨D, hD.1, hD.2.1⟩)⟩

/-! ## Unbounded forms, idempotence -/

theorem purgeEndOffset_none (Length : Nat) : purgeEndOffset none Length = MAXLONGLONG := by
  simp [purgeEndOffset]

/-- C14, the unbounded forms coincide: `CcPurgeCacheSection` with a NULL
`FileOffset` and any `Length` returns the same BOOLEAN and leaves the same
memory as the call with offset 0 and length 0, so the length is ignored when
the offset is NULL; and for every start offset the call with length 0 scans
with `StartOffset` equal to that offset and `EndOffset` equal to
MAXLONGLONG. -/
theorem unbounded_forms_coincide (PAGE_SIZE : Nat) (s : CcState)
    (sop : SECTION_OBJECT_POINTERS) (Length : Nat) (u : Bool) :
    CcPurgeCacheSection PAGE_SIZE s sop none Length u =
      CcPurgeCacheSection PAGE_SIZE s sop (some 0) 0 u ∧
    (∀ Length1, CcPurgeCacheSection PAGE_SIZE s sop none Length1 u =
      CcPurgeCacheSection PAGE_SIZE s sop none Length u) ∧
    purgeStartOffset none = 0 ∧ purgeEndOffset none Length = MAXLONGLONG ∧
    (∀ StartOffset : Int, purgeStartOffset (some StartOffset) = StartOffset ∧
      purgeEndOffset (some StartOffset) 0 = MAXLONGLONG ∧
      ∀ m, sop.SharedCacheMap = some m →
        (CcPurgeCacheSection PAGE_SIZE s sop (some StartOffset) 0 u).1 =
          purgeOk s.Vacbs (s.CacheMaps m).SectionSize StartOffset MAXLONGLONG
            (s.CacheMaps m).CacheMapVacbList ∧
        ((CcPurgeCacheSection PAGE_SIZE s sop (some StartOffset) 0 u).2.CacheMaps
            m).CacheMapVacbList =
          purgeKept s.Vacbs (s.CacheMaps m).SectionSize StartOffset MAXLONGLONG
            (s.CacheMaps m).CacheMapVacbList) := by
  refine ⟨?_, ?_, rfl, purgeEndOffset_none Length, ?_⟩
  · simp only [CcPurgeCacheSection, purgeEndOffset_none, purgeEndOffset_zero, purgeStartOffset]
  · intro Length1
    simp only [CcPurgeCacheSection, purgeEndOffset_none, purgeStartOffset]
  · intro StartOffset
    refine ⟨rfl, purgeEndOffset_zero _, ?_⟩
    intro m hm
    rw [CcPurgeCacheSection_some PAGE_SIZE s sop (some StartOffset) 0 u m hm]
    simp only [Function.update_same, keptOf, purgeEndOffset_zero, purgeStartOffset, and_self]

/-- Scanning again what a scan has left unlinks nothing and ends the same
way. -/
theorem purge_kept_again (Vacbs : VacbId → ROS_VACB)
    (SectionSize StartOffset EndOffset : Int) (l : List VacbId) :
    purgeDetached Vacbs SectionSize StartOffset EndOffset
        (purgeKept Vacbs SectionSize StartOffset EndOffset l) = [] ∧
    purgeKept Vacbs SectionSize StartOffset EndOffset
        (purgeKept Vacbs SectionSize StartOffset EndOffset l) =
      purgeKept Vacbs SectionSize StartOffset EndOffset l ∧
    purgeOk Vacbs SectionSize StartOffset EndOffset
        (purgeKept Vacbs SectionSize StartOffset EndOffset l) =
      purgeOk Vacbs SectionSize StartOffset EndOffset l := by
  induction l with
  | nil => simp [purgeKept, purgeDetached, purgeOk]
  | cons a rest ih =>
    by_cases h1 : (Vacbs a).FileOffset < StartOffset
    · rw [purgeKept, if_pos h1, purgeDetached, purgeKept, purgeOk, if_pos h1, if_pos h1,
        if_pos h1, purgeOk, if_pos h1]
      exact ⟨ih.1, congrArg (List.cons a) ih.2.1, ih.2.2⟩
    · by_cases h2 : ViewEnd (Vacbs a) SectionSize ≥ EndOffset
      · rw [purgeKept, if_neg h1, if_pos h2, purgeDetached, purgeKept, purgeOk, if_neg h1,
          if_pos h2, if_neg h1, if_pos h2, if_neg h1, if_pos h2]
        exact ⟨rfl, rfl, rfl⟩
      · by_cases h3 : (Vacbs a).ReferenceCount ≠ 0 ∧ (Vacbs a).Dirty = false
        · rw [purgeKept, if_neg h1, if_neg h2, if_pos h3, purgeDetached, purgeKept, purgeOk,
            if_neg h1, if_neg h2, if_pos h3, if_neg h1, if_neg h2, if_pos h3, if_neg h1,
            if_neg h2, if_pos h3]
          exact ⟨rfl, rfl, rfl⟩
        · rw [purgeKept, if_neg h1, if_neg h2, if_neg h3, purgeOk, if_neg h1, if_neg h2,
            if_neg h3]
          exact ih

/-- C19, the purge is idempotent: calling `CcPurgeCacheSection` again with the
same arguments on the memory the first call left (same views, so the same
reference counts and dirty flags) returns the same BOOLEAN and leaves that
memory unchanged: the view list, the recency list, the dirty list, the dirty
page counter and the trace of destroyed views are those after the first
call. -/
theorem purge_idempotent (PAGE_SIZE : Nat) (s : CcState) (sop : SECTION_OBJECT_POINTERS)
    (FileOffset : Option Int) (Length : Nat) (u : Bool) :
    CcPurgeCacheSection PAGE_SIZE
        (CcPurgeCacheSection PAGE_SIZE s sop FileOffset Length u).2 sop FileOffset Length u =
      CcPurgeCacheSection PAGE_SIZE s sop FileOffset Length u := by
  rcases hm : sop.SharedCacheMap with _ | m
  · rw [CcPurgeCacheSection_none PAGE_SIZE s sop FileOffset Length u hm,
      CcPurgeCacheSection_none PAGE_SIZE s sop FileOffset Length u hm]
  · rw [CcPurgeCacheSection_some PAGE_SIZE s sop FileOffset Length u m hm,
      CcPurgeCacheSection_some PAGE_SIZE _ sop FileOffset Length u m hm]
    have h := purge_kept_again s.Vacbs (s.CacheMaps m).SectionSize
      (purgeStartOffset FileOffset) (purgeEndOffset FileOffset Length)
      (s.CacheMaps m).CacheMapVacbList
    simp only [Function.update_same, Function.update_idem, keptOf, detachedOf, h.1, h.2.1,
      h.2.2, List.filter_nil, List.diff_nil, List.reverse_nil, List.append_nil, countAfter]

/-- C19, example: in `stateDirtyView` the bounded purge of the first 300000
bytes unlinks the dirty view at offset 0 and stops at the view at 256 KiB; a
second call returns TRUE again and unlinks nothing more. -/
theorem purge_idempotent_example :
    (CcPurgeCacheSection 4096 stateDirtyView ⟨some 0⟩ (some 0) 300000 false).1 = true ∧
    ((CcPurgeCacheSection 4096 stateDirtyView ⟨some 0⟩ (some 0) 300000 false).2.CacheMaps
      0).CacheMapVacbList = [1] ∧
    (CcPurgeCacheSection 4096
      (CcPurgeCacheSection 4096 stateDirtyView ⟨some 0⟩ (some 0) 300000 false).2
      ⟨some 0⟩ (some 0) 300000 false).1 = true ∧
    ((CcPurgeCacheSection 4096
      (CcPurgeCacheSection 4096 stateDirtyView ⟨some 0⟩ (some 0) 300000 false).2
      ⟨some 0⟩ (some 0) 300000 false).2.CacheMaps 0).CacheMapVacbList = [1] ∧
    (CcPurgeCacheSection 4096
      (CcPurgeCacheSection 4096 stateDirtyView ⟨some 0⟩ (some 0) 300000 false).2
      ⟨some 0⟩ (some 0) 300000 false).2.FreedVacbs = [0] :=
  ⟨by decide, by decide, by decide, by decide, by decide⟩

/-! ## The skip rule -/

/-- C15, counterexample: one clean unreferenced view at offset 0 of a 1 MiB
section and the unbounded purge from offset 4096. The view begins before the
start offset and its window reaches 262144, past the start offset, yet the
loop skips it (0 < 4096): it is still in the view list. -/
theorem skip_rule_counterexample : ¬ SkipRuleAsStated 4096 stateOneView 0 4096 0 := by
  intro h
  exact h 0 (by decide) (by decide) (by decide) (by decide) (by decide)

/-- C15, amended: the scan skips a view exactly on `FileOffset < StartOffset`.
A view of the file that begins before the start offset is passed over by the
loop whatever follows, stays in the view list, the recency list and the dirty
list, and is not handed to the view destroyer, also when its window extends
past the start offset; a view that begins at or after the start offset is not
skipped: the loop stops at it or unlinks it, and every view destroyed by the
call begins at or after the start offset. -/
theorem skip_rule_by_offset (PAGE_SIZE : Nat) (s : CcState) (m : Nat)
    (FileOffset : Option Int) (Length : Nat) (u : Bool) (v : VacbId)
    (hv : v ∈ (s.CacheMaps m).CacheMapVacbList)
    (hlt : (s.Vacbs v).FileOffset < purgeStartOffset FileOffset) :
    (∀ rest st, purgeLoop s.Vacbs PAGE_SIZE (s.CacheMaps m).SectionSize
        (purgeStartOffset FileOffset) (purgeEndOffset FileOffset Length) (v :: rest) st =
      purgeLoop s.Vacbs PAGE_SIZE (s.CacheMaps m).SectionSize
        (purgeStartOffset FileOffset) (purgeEndOffset FileOffset Length) rest st) ∧
    v ∈ ((CcPurgeCacheSection PAGE_SIZE s ⟨some m⟩ FileOffset Length u).2.CacheMaps
      m).CacheMapVacbList ∧
    (v ∈ s.VacbLruList →
      v ∈ (CcPurgeCacheSection PAGE_SIZE s ⟨some m⟩ FileOffset Length u).2.VacbLruList) ∧
    (v ∈ s.DirtyVacbList →
      v ∈ (CcPurgeCacheSection PAGE_SIZE s ⟨some m⟩ FileOffset Length u).2.DirtyVacbList) ∧
    (∃ D, (CcPurgeCacheSection PAGE_SIZE s ⟨some m⟩ FileOffset Length u).2.FreedVacbs =
        s.FreedVacbs ++ D ∧ v ∉ D ∧
        ∀ w ∈ D, purgeStartOffset FileOffset ≤ (s.Vacbs w).FileOffset) ∧
    (∀ w rest st, purgeStartOffset FileOffset ≤ (s.Vacbs w).FileOffset →
      purgeLoop s.Vacbs PAGE_SIZE (s.CacheMaps m).SectionSize
          (purgeStartOffset FileOffset) (purgeEndOffset FileOffset Length) (w :: rest) st =
        if ViewEnd (s.Vacbs w) (s.CacheMaps m).SectionSize ≥
            purgeEndOffset FileOffset Length then st
        else if (s.Vacbs w).ReferenceCount ≠ 0 ∧ (s.Vacbs w).Dirty = false then
          ⟨st.CacheMapVacbList, st.VacbLruList, st.DirtyVacbList, st.DirtyPageCount,
            st.FreeList, false⟩
        else purgeLoop s.Vacbs PAGE_SIZE (s.CacheMaps m).SectionSize
          (purgeStartOffset FileOffset) (purgeEndOffset FileOffset Length) rest
          (unlinkVacb s.Vacbs PAGE_SIZE w st)) := by
  have hvd : v ∉ detachedOf s m FileOffset Length := fun h =>
    absurd (purgeDetached_spec _ _ _ _ _ v h).2.1 (not_le.2 hlt)
  rw [CcPurgeCacheSection_some PAGE_SIZE s ⟨some m⟩ FileOffset Length u m rfl]
  simp only [Function.update_same]
  refine ⟨?_, ?_, ?_, ?_, ?_, ?_⟩
  · intro rest st
    rw [purgeLoop, if_pos hlt]
  · have hk : keptOf s m FileOffset Length =
        (s.CacheMaps m).CacheMapVacbList.diff (detachedOf s m FileOffset Length) :=
      purgeKept_eq _ _ _ _ _
    rw [hk]
    exact List.mem_diff_of_mem hv hvd
  · exact fun h => List.mem_diff_of_mem h hvd
  · exact fun h => List.mem_diff_of_mem h (fun hf => hvd (List.mem_filter.1 hf).1)
  · refine ⟨_, rfl, by simpa using hvd, ?_⟩
    intro w hw
    exact (purgeDetached_spec _ _ _ _ _ w (List.mem_reverse.1 hw)).2.1
  · intro w rest st hge
    rw [purgeLoop, if_neg (not_lt.2 hge)]

/-- C15, witness: at the candidate input the view at offset 0 is skipped by
the unbounded purge from 4096: it stays linked and nothing is destroyed. -/
theorem skip_rule_by_offset_witness :
    (stateOneView.Vacbs 0).FileOffset < purgeStartOffset (some 4096) ∧
    0 ∈ ((CcPurgeCacheSection 4096 stateOneView ⟨some 0⟩ (some 4096) 0 false).2.CacheMaps
      0).CacheMapVacbList ∧
    (CcPurgeCacheSection 4096 stateOneView ⟨some 0⟩ (some 4096) 0 false).2.FreedVacbs = [] :=
  ⟨by decide,
   (skip_rule_by_offset 4096 stateOneView 0 (some 4096) 0 false 0 (by decide) (by decide)).2.1,
   by decide⟩

/-! ## Teardown with a truncate size at or above the file size -/

/-- C16, counterexample: file size 4096, one clean unreferenced view at
256 KiB, truncate size 8192. The truncate size is not below the file size,
yet the truncate step purges from 8192 on and the view list ends empty. -/
theorem truncate_only_when_smaller_counterexample :
    ¬ TruncateOnlyWhenSmallerAsStated 4096 stateSmallFileOneView 0 0 8192 := by
  intro h
  have h2 := (h (by decide)).2.1
  exact absurd h2 (by decide)

/-- C16, amended: on a cached file the truncate step lowers the file size
only when the truncate size is below it, but it calls the unbounded purge
from the truncate size whenever a truncate size is given. With a truncate
size at or above the file size, the step leaves the memory exactly as
`CcPurgeCacheSection (SectionObjectPointer, TruncateSize, 0, FALSE)` leaves
it, so the file size and the section size are unchanged while views that
start at or after the truncate size can be unlinked. Without a truncate size,
or for a file without section object pointers or without cache map, the step
changes nothing. -/
theorem truncate_purges_whenever_size_given (PAGE_SIZE : Nat) (s : CcState)
    (FileObject : Nat) (sop : SECTION_OBJECT_POINTERS) (m : Nat) (T : Int)
    (hsop : (s.FileObjects FileObject).SectionObjectPointer = some sop)
    (hm : sop.SharedCacheMap = some m)
    (hge : (s.CacheMaps m).FileSize ≤ T) :
    uninitializeTruncate PAGE_SIZE s FileObject (some T) =
      (CcPurgeCacheSection PAGE_SIZE s sop (some T) 0 false).2 ∧
    ((uninitializeTruncate PAGE_SIZE s FileObject (some T)).CacheMaps m).FileSize =
      (s.CacheMaps m).FileSize ∧
    ((uninitializeTruncate PAGE_SIZE s FileObject (some T)).CacheMaps m).SectionSize =
      (s.CacheMaps m).SectionSize ∧
    uninitializeTruncate PAGE_SIZE s FileObject none = s ∧
    (∀ t : CcState, ∀ f T1, (t.FileObjects f).SectionObjectPointer = none →
      uninitializeTruncate PAGE_SIZE t f T1 = t) ∧
    (∀ t : CcState, ∀ f T1, (t.FileObjects f).SectionObjectPointer = some ⟨none⟩ →
      uninitializeTruncate PAGE_SIZE t f T1 = t) := by
  have h1 : uninitializeTruncate PAGE_SIZE s FileObject (some T) =
      (CcPurgeCacheSection PAGE_SIZE s sop (some T) 0 false).2 := by
    rw [uninitializeTruncate_some PAGE_SIZE s FileObject sop m T hsop hm, min_eq_left hge,
      withSizes_self]
  refine ⟨h1, ?_, ?_, by simp [uninitializeTruncate], ?_, ?_⟩
  · rw [h1, CcPurgeCacheSection_some PAGE_SIZE s sop (some T) 0 false m hm]
    simp
  · rw [h1, CcPurgeCacheSection_some PAGE_SIZE s sop (some T) 0 false m hm]
    simp
  · intro t f T1 h
    rcases T1 with _ | Q <;> simp [uninitializeTruncate, h]
  · intro t f T1 h
    rcases T1 with _ | Q <;> simp [uninitializeTruncate, h]

/-- C16, witness: at the candidate input the truncate step equals the
unbounded purge from 8192; the file size stays 4096 and the view at 256 KiB is
destroyed. -/
theorem truncate_purges_whenever_size_given_witness :
    uninitializeTruncate 4096 stateSmallFileOneView 0 (some 8192) =
      (CcPurgeCacheSection 4096 stateSmallFileOneView ⟨some 0⟩ (some 8192) 0 false).2 ∧
    ((uninitializeTruncate 4096 stateSmallFileOneView 0 (some 8192)).CacheMaps 0).FileSize =
      4096 ∧
    (uninitializeTruncate 4096 stateSmallFileOneView 0 (some 8192)).FreedVacbs = [0] :=
  have h := truncate_purges_whenever_size_given 4096 stateSmallFileOneView 0 ⟨some 0⟩ 0 8192
    rfl rfl (by decide)
  ⟨h.1, h.2.1, by decide⟩

/-! ## The early stop -/

/-- A scan that meets, at or after the start offset, a view whose window end
reaches the end offset stops there with TRUE and unlinks nothing more. -/
theorem purge_stop (Vacbs : VacbId → ROS_VACB)
    (SectionSize StartOffset EndOffset : Int) (v : VacbId) (post : List VacbId)
    (h1 : StartOffset ≤ (Vacbs v).FileOffset)
    (h2 : EndOffset ≤ ViewEnd (Vacbs v) SectionSize) :
    purgeDetached Vacbs SectionSize StartOffset EndOffset (v :: post) = [] ∧
    purgeKept Vacbs SectionSize StartOffset EndOffset (v :: post) = v :: post ∧
    purgeOk Vacbs SectionSize StartOffset EndOffset (v :: post) = true := by
  have h1a : ¬ (Vacbs v).FileOffset < StartOffset := not_lt.2 h1
  have h2a : ViewEnd (Vacbs v) SectionSize ≥ EndOffset := h2
  rw [purgeDetached, purgeKept, purgeOk, if_neg h1a, if_pos h2a, if_neg h1a, if_pos h2a,
    if_neg h1a, if_pos h2a]
  exact ⟨rfl, rfl, rfl⟩

/-- C17, the early stop under-purges on an unsorted list. There is a cached
file whose view list is not in non-decreasing offset order and a bounded
range such that the purge returns TRUE while a clean unreferenced view whose
whole window lies in the range is still in the view list (views at 512 KiB
and at 0 in this order, range of 307200 bytes from 0). On a view list in
non-decreasing offset order, when the scan stops at a view whose window end
reaches the end offset, the call returns TRUE, that view and all views after
it stay, and each of them has a capped window end
min (offset + granularity, section size) at or above the end offset. -/
theorem early_stop_under_purges :
    (∃ (s : CcState) (m : Nat) (StartOffset : Int) (Length : Nat),
      ¬ (s.CacheMaps m).CacheMapVacbList.Pairwise
          (fun a b => (s.Vacbs a).FileOffset ≤ (s.Vacbs b).FileOffset) ∧
      0 < Length ∧
      (CcPurgeCacheSection 4096 s ⟨some m⟩ (some StartOffset) Length false).1 = true ∧
      ∃ v ∈ ((CcPurgeCacheSection 4096 s ⟨some m⟩ (some StartOffset) Length
          false).2.CacheMaps m).CacheMapVacbList,
        (s.Vacbs v).Dirty = false ∧ (s.Vacbs v).ReferenceCount = 0 ∧
        StartOffset ≤ (s.Vacbs v).FileOffset ∧
        (s.Vacbs v).FileOffset + (VACB_MAPPING_GRANULARITY : Int) ≤
          StartOffset + (Length : Int)) ∧
    (∀ (PAGE_SIZE : Nat) (s : CcState) (m : Nat) (FileOffset : Option Int) (Length : Nat)
        (u : Bool) (pre : List VacbId) (v : VacbId) (post : List VacbId),
      (s.CacheMaps m).CacheMapVacbList = pre ++ v :: post →
      (s.CacheMaps m).CacheMapVacbList.Pairwise
        (fun a b => (s.Vacbs a).FileOffset ≤ (s.Vacbs b).FileOffset) →
      -9223372036854775808 ≤ (s.Vacbs v).FileOffset →
      (∀ w ∈ pre, ScanPasses s.Vacbs (s.CacheMaps m).SectionSize
        (purgeStartOffset FileOffset) (purgeEndOffset FileOffset Length) w) →
      purgeStartOffset FileOffset ≤ (s.Vacbs v).FileOffset →
      purgeEndOffset FileOffset Length ≤ ViewEnd (s.Vacbs v) (s.CacheMaps m).SectionSize →
      (CcPurgeCacheSection PAGE_SIZE s ⟨some m⟩ FileOffset Length u).1 = true ∧
      ((CcPurgeCacheSection PAGE_SIZE s ⟨some m⟩ FileOffset Length u).2.CacheMaps
          m).CacheMapVacbList =
        pre.filter (fun w => decide ((s.Vacbs w).FileOffset < purgeStartOffset FileOffset)) ++
          v :: post ∧
      ∀ w ∈ v :: post, purgeEndOffset FileOffset Length ≤
        min ((s.Vacbs w).FileOffset + (VACB_MAPPING_GRANULARITY : Int))
          (s.CacheMaps m).SectionSize) := by
  constructor
  · exact ⟨stateUnsorted, 0, 0, 307200, by decide, by decide, by decide, 1, by decide,
      by decide, by decide, by decide, by decide⟩
  · intro PAGE_SIZE s m FileOffset Length u pre v post hl hsorted hlow hpre h1 h2
    have ha := purge_append s.Vacbs (s.CacheMaps m).SectionSize (purgeStartOffset FileOffset)
      (purgeEndOffset FileOffset Length) pre (v :: post) hpre
    have hb := purge_stop s.Vacbs (s.CacheMaps m).SectionSize (purgeStartOffset FileOffset)
      (purgeEndOffset FileOffset Length) v post h1 h2
    rw [CcPurgeCacheSection_some PAGE_SIZE s ⟨some m⟩ FileOffset Length u m rfl]
    simp only [Function.update_same, keptOf, hl]
    rw [ha.2.1, ha.2.2, hb.2.1, hb.2.2]
    refine ⟨rfl, rfl, ?_⟩
    have hv : purgeEndOffset FileOffset Length ≤
        min ((s.Vacbs v).FileOffset + (VACB_MAPPING_GRANULARITY : Int))
          (s.CacheMaps m).SectionSize := by
      have hw := wrapLONGLONG_le ((s.Vacbs v).FileOffset + (VACB_MAPPING_GRANULARITY : Int))
        (by simp only [VACB_MAPPING_GRANULARITY]; omega)
      unfold ViewEnd at h2
      omega
    rw [hl] at hsorted
    have hs2 := (List.pairwise_cons.1 (List.pairwise_append.1 hsorted).2.1).1
    intro w hw
    rcases List.mem_cons.1 hw with rfl | hw
    · exact hv
    · have := hs2 w hw
      omega

/-- C17, witness of the sorted case: in `stateDirtyView` (views at 0 and
256 KiB in this order) the purge of 300000 bytes from 0 unlinks the first
view and stops at the second, whose capped window end 524288 is not below the
end offset 300000. -/
theorem early_stop_under_purges_witness :
    (CcPurgeCacheSection 4096 stateDirtyView ⟨some 0⟩ (some 0) 300000 false).1 = true ∧
    ((CcPurgeCacheSection 4096 stateDirtyView ⟨some 0⟩ (some 0) 300000 false).2.CacheMaps
        0).CacheMapVacbList =
      [0].filter (fun w => decide ((stateDirtyView.Vacbs w).FileOffset <
        purgeStartOffset (some 0))) ++ [1] ∧
    ∀ w ∈ [1], purgeEndOffset (some 0) 300000 ≤
      min ((stateDirtyView.Vacbs w).FileOffset + (VACB_MAPPING_GRANULARITY : Int))
        (stateDirtyView.CacheMaps 0).SectionSize :=
  early_stop_under_purges.2 4096 stateDirtyView 0 (some 0) 300000 false [0] 1 [] (by decide)
    (by decide) (by decide) (by decide) (by decide) (by decide)

/-! ## The purge stays inside the range and inside the file -/

/-- C18, the purge never discards data outside the requested range. When the
additions of the routine do not overflow (offset + granularity for the views
of the file, start + length for a bounded call), every view destroyed by the
call, and every view that left the view list, is a view of the file with
offset at or after the start offset and capped window end
min (offset + granularity, section size) strictly below the end offset, the
end offset being start + length, or MAXLONGLONG for an unbounded call. A view
of the file that begins before the start offset or whose capped window end
reaches the end offset, so one that overlaps the range only partially, stays
in the view list, the recency list and the dirty list. -/
theorem purge_within_range (PAGE_SIZE : Nat) (s : CcState) (m : Nat)
    (FileOffset : Option Int) (Length : Nat) (u : Bool)
    (hvalid : ∀ v ∈ (s.CacheMaps m).CacheMapVacbList,
      -9223372036854775808 ≤ (s.Vacbs v).FileOffset ∧
      (s.Vacbs v).FileOffset + (VACB_MAPPING_GRANULARITY : Int) ≤ MAXLONGLONG)
    (hend : Length ≠ 0 → FileOffset ≠ none →
      -9223372036854775808 ≤ purgeStartOffset FileOffset + (Length : Int) ∧
      purgeStartOffset FileOffset + (Length : Int) ≤ MAXLONGLONG) :
    (∃ D, (CcPurgeCacheSection PAGE_SIZE s ⟨some m⟩ FileOffset Length u).2.FreedVacbs =
        s.FreedVacbs ++ D ∧
      ∀ v ∈ D, v ∈ (s.CacheMaps m).CacheMapVacbList ∧
        purgeStartOffset FileOffset ≤ (s.Vacbs v).FileOffset ∧
        min ((s.Vacbs v).FileOffset + (VACB_MAPPING_GRANULARITY : Int))
            (s.CacheMaps m).SectionSize <
          (if Length = 0 ∨ FileOffset = none then MAXLONGLONG
           else purgeStartOffset FileOffset + (Length : Int))) ∧
    (∀ v ∈ (s.CacheMaps m).CacheMapVacbList,
      v ∉ ((CcPurgeCacheSection PAGE_SIZE s ⟨some m⟩ FileOffset Length u).2.CacheMaps
        m).CacheMapVacbList →
      purgeStartOffset FileOffset ≤ (s.Vacbs v).FileOffset ∧
      min ((s.Vacbs v).FileOffset + (VACB_MAPPING_GRANULARITY : Int))
          (s.CacheMaps m).SectionSize <
        (if Length = 0 ∨ FileOffset = none then MAXLONGLONG
         else purgeStartOffset FileOffset + (Length : Int))) ∧
    (∀ v ∈ (s.CacheMaps m).CacheMapVacbList,
      ((s.Vacbs v).FileOffset < purgeStartOffset FileOffset ∨
        (if Length = 0 ∨ FileOffset = none then MAXLONGLONG
         else purgeStartOffset FileOffset + (Length : Int)) ≤
          min ((s.Vacbs v).FileOffset + (VACB_MAPPING_GRANULARITY : Int))
            (s.CacheMaps m).SectionSize) →
      v ∈ ((CcPurgeCacheSection PAGE_SIZE s ⟨some m⟩ FileOffset Length u).2.CacheMaps
        m).CacheMapVacbList ∧
      (v ∈ s.VacbLruList →
        v ∈ (CcPurgeCacheSection PAGE_SIZE s ⟨some m⟩ FileOffset Length u).2.VacbLruList) ∧
      (v ∈ s.DirtyVacbList →
        v ∈ (CcPurgeCacheSection PAGE_SIZE s ⟨some m⟩ FileOffset Length u).2.DirtyVacbList)) := by
  have hE : purgeEndOffset FileOffset Length =
      (if Length = 0 ∨ FileOffset = none then MAXLONGLONG
       else purgeStartOffset FileOffset + (Length : Int)) := by
    by_cases hc : Length = 0 ∨ FileOffset = none
    · simp only [purgeEndOffset, if_pos hc]
    · simp only [purgeEndOffset, if_neg hc]
      have hc1 := not_or.1 hc
      have := hend hc1.1 hc1.2
      exact wrapLONGLONG_eq _ this.1 this.2
  have hspec : ∀ v ∈ detachedOf s m FileOffset Length,
      v ∈ (s.CacheMaps m).CacheMapVacbList ∧
      purgeStartOffset FileOffset ≤ (s.Vacbs v).FileOffset ∧
      min ((s.Vacbs v).FileOffset + (VACB_MAPPING_GRANULARITY : Int))
          (s.CacheMaps m).SectionSize <
        (if Length = 0 ∨ FileOffset = none then MAXLONGLONG
         else purgeStartOffset FileOffset + (Length : Int)) := by
    intro v hv
    have h := purgeDetached_spec _ _ _ _ _ v hv
    have hval := hvalid v h.1
    refine ⟨h.1, h.2.1, ?_⟩
    rw [← hE]
    have hlt := h.2.2.1
    unfold ViewEnd at hlt
    rw [wrapLONGLONG_eq _ (by simp only [VACB_MAPPING_GRANULARITY]; omega) hval.2] at hlt
    exact hlt
  have hk : keptOf s m FileOffset Length =
      (s.CacheMaps m).CacheMapVacbList.diff (detachedOf s m FileOffset Length) :=
    purgeKept_eq _ _ _ _ _
  rw [CcPurgeCacheSection_some PAGE_SIZE s ⟨some m⟩ FileOffset Length u m rfl]
  simp only [Function.update_same]
  refine ⟨⟨_, rfl, fun v hv => hspec v (List.mem_reverse.1 hv)⟩, ?_, ?_⟩
  · intro v hv hnot
    have hd : v ∈ detachedOf s m FileOffset Length := by
      by_contra hd
      exact hnot (hk ▸ List.mem_diff_of_mem hv hd)
    exact (hspec v hd).2
  · intro v hv hout
    have hd : v ∉ detachedOf s m FileOffset Length := by
      intro hd
      have := (hspec v hd).2
      omega
    refine ⟨hk ▸ List.mem_diff_of_mem hv hd, fun h => List.mem_diff_of_mem h hd,
      fun h => List.mem_diff_of_mem h (fun hf => hd (List.mem_filter.1 hf).1)⟩

/-- C18, witness: in `stateDirtyView` the purge of 300000 bytes from 0
destroys only the view at offset 0, whose window ends at 262144, and keeps
the view at 256 KiB, whose window reaches 524288. -/
theorem purge_within_range_witness :
    (CcPurgeCacheSection 4096 stateDirtyView ⟨some 0⟩ (some 0) 300000 false).2.FreedVacbs =
      [0] ∧
    (1 ∈ ((CcPurgeCacheSection 4096 stateDirtyView ⟨some 0⟩ (some 0) 300000
        false).2.CacheMaps 0).CacheMapVacbList ∧
      (1 ∈ stateDirtyView.VacbLruList →
        1 ∈ (CcPurgeCacheSection 4096 stateDirtyView ⟨some 0⟩ (some 0) 300000
          false).2.VacbLruList) ∧
      (1 ∈ stateDirtyView.DirtyVacbList →
        1 ∈ (CcPurgeCacheSection 4096 stateDirtyView ⟨some 0⟩ (some 0) 300000
          false).2.DirtyVacbList)) :=
  ⟨by decide,
   (purge_within_range 4096 stateDirtyView 0 (some 0) 300000 false (by decide)
      (by intro _ _; decide)).2.2 1 (by decide) (Or.inr (by decide))⟩

/-- C20, the purge is file-local. One call of `CcPurgeCacheSection` on a
cached file leaves the record of every other cache map (view list, section
size, file size) as it was, leaves the section size and file size of its own
cache map, the views and the file objects as they were, and, the lists
linking each view once and the views of the file on the dirty list being
flagged dirty, leaves the recency list and the dirty list equal to the old
lists with the views it unlinked from the file's view list filtered out: all
other entries keep their membership and their order. -/
theorem purge_file_local (PAGE_SIZE : Nat) (s : CcState) (m : Nat)
    (FileOffset : Option Int) (Length : Nat) (u : Bool)
    (hnodup : (s.CacheMaps m).CacheMapVacbList.Nodup)
    (hlru : s.VacbLruList.Nodup) (hdirty : s.DirtyVacbList.Nodup)
    (hflag : ∀ v ∈ (s.CacheMaps m).CacheMapVacbList, v ∈ s.DirtyVacbList →
      (s.Vacbs v).Dirty = true) :
    (∀ m1, m1 ≠ m →
      (CcPurgeCacheSection PAGE_SIZE s ⟨some m⟩ FileOffset Length u).2.CacheMaps m1 =
        s.CacheMaps m1) ∧
    ((CcPurgeCacheSection PAGE_SIZE s ⟨some m⟩ FileOffset Length u).2.CacheMaps m).SectionSize =
      (s.CacheMaps m).SectionSize ∧
    ((CcPurgeCacheSection PAGE_SIZE s ⟨some m⟩ FileOffset Length u).2.CacheMaps m).FileSize =
      (s.CacheMaps m).FileSize ∧
    (CcPurgeCacheSection PAGE_SIZE s ⟨some m⟩ FileOffset Length u).2.Vacbs = s.Vacbs ∧
    (CcPurgeCacheSection PAGE_SIZE s ⟨some m⟩ FileOffset Length u).2.FileObjects =
      s.FileObjects ∧
    (∃ D, (CcPurgeCacheSection PAGE_SIZE s ⟨some m⟩ FileOffset Length u).2.FreedVacbs =
        s.FreedVacbs ++ D ∧
      (∀ v, v ∈ D ↔ (v ∈ (s.CacheMaps m).CacheMapVacbList ∧
        v ∉ ((CcPurgeCacheSection PAGE_SIZE s ⟨some m⟩ FileOffset Length u).2.CacheMaps
          m).CacheMapVacbList)) ∧
      (CcPurgeCacheSection PAGE_SIZE s ⟨some m⟩ FileOffset Length u).2.VacbLruList =
        s.VacbLruList.filter (fun v => decide (v ∉ D)) ∧
      (CcPurgeCacheSection PAGE_SIZE s ⟨some m⟩ FileOffset Length u).2.DirtyVacbList =
        s.DirtyVacbList.filter (fun v => decide (v ∉ D))) := by
  rw [CcPurgeCacheSection_some PAGE_SIZE s ⟨some m⟩ FileOffset Length u m rfl]
  have hsub : (detachedOf s m FileOffset Length).Sublist (s.CacheMaps m).CacheMapVacbList :=
    purgeDetached_sublist _ _ _ _ _
  have hkept : keptOf s m FileOffset Length =
      (s.CacheMaps m).CacheMapVacbList.diff (detachedOf s m FileOffset Length) :=
    purgeKept_eq _ _ _ _ _
  refine ⟨fun m1 h => Function.update_noteq h _ _, by simp, by simp, rfl, rfl,
    (detachedOf s m FileOffset Length).reverse, rfl, ?_, ?_, ?_⟩
  · intro v
    simp only [Function.update_same]
    rw [List.mem_reverse, hkept, hnodup.mem_diff_iff]
    constructor
    · exact fun h => ⟨hsub.subset h, fun hc => hc.2 h⟩
    · rintro ⟨h1, h2⟩
      by_contra hc
      exact h2 ⟨h1, hc⟩
  · simp only
    rw [hlru.diff_eq_filter]
    apply List.filter_congr
    intro v _
    simp
  · simp only
    rw [hdirty.diff_eq_filter]
    apply List.filter_congr
    intro v hv
    simp only [List.mem_filter, List.mem_reverse, decide_eq_decide, not_and]
    constructor
    · intro h hd
      by_cases hf : (s.Vacbs v).Dirty = true
      · exact h hd (by simpa using hf)
      · exact hf (hflag v (hsub.subset hd) hv)
    · intro h hd
      exact absurd hd h

/-- C20, witness: in `stateTwoFiles`, with the recency and dirty lists holding
view 0 of cache map 0 and view 1 of cache map 1, the unbounded purge on cache
map 0 leaves the record of cache map 1 untouched and both global lists
equal to [1]. -/
theorem purge_file_local_witness :
    (CcPurgeCacheSection 4096 stateTwoFiles ⟨some 0⟩ none 0 false).2.CacheMaps 1 =
      stateTwoFiles.CacheMaps 1 ∧
    (CcPurgeCacheSection 4096 stateTwoFiles ⟨some 0⟩ none 0 false).2.VacbLruList = [1] ∧
    (CcPurgeCacheSection 4096 stateTwoFiles ⟨some 0⟩ none 0 false).2.DirtyVacbList = [1] ∧
    (CcPurgeCacheSection 4096 stateTwoFiles ⟨some 0⟩ none 0 false).2.DirtyPageCount = 64 :=
  ⟨(purge_file_local 4096 stateTwoFiles 0 none 0 false (by decide) (by decide) (by decide)
      (by decide)).1 1 (by decide),
   by decide, by decide, by decide⟩

end CcFs
